import Mathlib

/-!
Verification of the womens-wc repository: a shallow embedding of
`src/womenswc/weights_util.py`, `src/womenswc/match_data_util.py`,
`src/womenswc/build_base_dataset.py` and `src/womenswc/features.py`,
together with theorems settling the specification claims.

Numeric pandas/NumPy columns are modelled as `List ℚ` (the source holds
integers and IEEE floats; the claims under study are algebraic identities
and zero tests, which the source's float pipeline realises exactly on the
intended integer data, so the rational model is the faithful idealisation).
DataFrame rows are structures, Python dicts are association lists or
functions into `Option`, and raising code returns `Except String`.
-/

set_option linter.unusedVariables false
set_option linter.unnecessarySeqFocus false

namespace WWC

/-- A row of the chronologically sorted base table (`base_dataset.parquet`)
as produced by `build_base_dataset.py`: two sides labelled `team_0`/`team_1`,
per-side batting figures, and `result` the index of the winning team. -/
structure MatchRow where
  team_0 : String
  team_1 : String
  country : String
  runs_0 : Nat
  wickets_0 : Nat
  deliveries_0 : Nat
  runs_1 : Nat
  wickets_1 : Nat
  deliveries_1 : Nat
  result : Nat
deriving Inhabited, DecidableEq, Repr

/-- Python booleans coerce to 1/0 in arithmetic (`ser_0 * is_team_0[team]`,
`base_df.result == 0` summed as a win count). -/
def boolToQ (b : Bool) : ℚ := if b then 1 else 0

/-- `pd.Series.cumsum()`: inclusive running sums of a numeric column. -/
def cumsum (x : List ℚ) : List ℚ :=
  (List.range x.length).map (fun i => (x.take (i + 1)).sum)

/-- `custom_cumsum` (weights_util.py lines 29-31): `x.cumsum() - x`,
the running sum excluding the current row. -/
def custom_cumsum (x : List ℚ) : List ℚ :=
  List.zipWith (· - ·) (cumsum x) x

/-- The per-team virtual series of weights_util.py line 71:
`ser[team] = ser_0 * is_team_0[team] + ser_1 * is_team_1[team]`. -/
def team_series (ser_0 ser_1 : List ℚ) (is_team_0 is_team_1 : String → List Bool)
    (team : String) : List ℚ :=
  List.zipWith (· + ·)
    (List.zipWith (· * ·) ser_0 ((is_team_0 team).map boolToQ))
    (List.zipWith (· * ·) ser_1 ((is_team_1 team).map boolToQ))

/-- The per-team column of weights_util.py line 74:
`weight * custom_cumsum(ser[team] / weight)`. -/
def weighted_cumsum_team (ser weight : List ℚ) : List ℚ :=
  List.zipWith (· * ·) weight (custom_cumsum (List.zipWith (· / ·) ser weight))

/-- `weighted_cumsum` (weights_util.py lines 34-76).  The source stacks the
per-team lists with `np.array(...).transpose()` into a matches × teams
matrix; we keep the team-major layout (one inner list per team, in `teams`
order) and `npTake` below reads entry (row, team) as `mat[team][row]`,
which composes to exactly the transposed-matrix advanced indexing of the
source. -/
def weighted_cumsum (ser_0 ser_1 weight : List ℚ) (teams : List String)
    (is_team_0 is_team_1 : String → List Bool) : List (List ℚ) :=
  teams.map (fun team =>
    weighted_cumsum_team (team_series ser_0 ser_1 is_team_0 is_team_1 team) weight)

/-- `pd.Index(teams).get_indexer(names)` for a single name: position of the
first occurrence in `teams`, or `-1` when absent (the source assumes the
teams index is unique; pandas raises on a non-unique index). -/
def get_indexer (teams : List String) (name : String) : Int :=
  if name ∈ teams then (List.indexOf name teams : Int) else -1

/-- Which team occupies slot `n` of a row (`base_df[f"team_{n}"]`). -/
def teamAt (n : Fin 2) (r : MatchRow) : String :=
  match n with
  | 0 => r.team_0
  | 1 => r.team_1

/-- `indexer` (weights_util.py lines 80-81): the pair
`(np.arange(len(base_df)), pd.Index(teams).get_indexer(base_df[f"team_{n}"]))`
used for NumPy advanced indexing. -/
def indexer (base_df : List MatchRow) (teams : List String) (n : Fin 2) :
    List Nat × List Int :=
  (List.range base_df.length,
   base_df.map (fun r => get_indexer teams (teamAt n r)))

/-- Read entry (row `i`, column `t`) of the transposed weighted-cumsum
matrix, i.e. `mat[t][i]` of our team-major layout, with Python/NumPy
negative-index wrap-around (`-1` selects the last column).  Out-of-range
accesses, on which NumPy would raise `IndexError`, default to `0`/`[]`;
no claim depends on that branch. -/
def npTake (mat : List (List ℚ)) (t : Int) (i : Nat) : ℚ :=
  let t' := if t < 0 then t + (mat.length : Int) else t
  ((mat.getD t'.toNat []).getD i 0)

/-- NumPy advanced indexing `mat.transpose()[indexer(...)]`: one value per
row, taken from the column named by the row's team index. -/
def npProject (mat : List (List ℚ)) (idxr : List Nat × List Int) : List ℚ :=
  List.zipWith (fun i t => npTake mat t i) idxr.1 idxr.2

/-- The three raw per-match quantities that have `_0`/`_1` columns. -/
inductive StatColumn
  | runs
  | wickets
  | deliveries
deriving Inhabited, DecidableEq, Repr

/-- `base_df[f"{column}_{side}"]` for a single row (`side` is 0 or 1;
any other value never arises because callers pass `m` and `1 - m` with
`m ∈ {0, 1}`). -/
def colVal (c : StatColumn) (side : Nat) (r : MatchRow) : ℚ :=
  match c with
  | .runs => if side = 0 then (r.runs_0 : ℚ) else (r.runs_1 : ℚ)
  | .wickets => if side = 0 then (r.wickets_0 : ℚ) else (r.wickets_1 : ℚ)
  | .deliveries => if side = 0 then (r.deliveries_0 : ℚ) else (r.deliveries_1 : ℚ)

/-- `weighted_cumsum_column` (weights_util.py lines 85-110): for bowling
side statistics the `_0`/`_1` columns are swapped (`m = int(is_bowling_side)`),
then the weighted cumulative team matrix is projected back onto the rows via
`indexer`.  The `n not in [0, 1]` ValueError branch is unrepresentable here
because `n : Fin 2`. -/
def weighted_cumsum_column (base_df : List MatchRow) (column : StatColumn)
    (weight : List ℚ) (teams : List String)
    (is_team_0 is_team_1 : String → List Bool)
    (is_bowling_side : Bool) (n : Fin 2) : List ℚ :=
  let m : Nat := if is_bowling_side then 1 else 0
  npProject
    (weighted_cumsum (base_df.map (colVal column m)) (base_df.map (colVal column (1 - m)))
      weight teams is_team_0 is_team_1)
    (indexer base_df teams n)

/-- `weighted_agg_stats` (weights_util.py lines 113-180): the Python dict
keyed `f"{stat}_{n}"`, built for `n in [0, 1]`, modelled as an association
list in the source's insertion order. -/
def weighted_agg_stats (base_df : List MatchRow) (weight : List ℚ)
    (teams : List String) (is_team_0 is_team_1 : String → List Bool) :
    List (String × List ℚ) :=
  let wins := fun (n : Fin 2) =>
    npProject
      (weighted_cumsum (base_df.map (fun r => boolToQ (r.result == 0)))
        (base_df.map (fun r => boolToQ (r.result == 1)))
        weight teams is_team_0 is_team_1)
      (indexer base_df teams n)
  let matchCount := fun (n : Fin 2) =>
    npProject
      (weighted_cumsum (List.replicate base_df.length (1 : ℚ))
        (List.replicate base_df.length (1 : ℚ))
        weight teams is_team_0 is_team_1)
      (indexer base_df teams n)
  [("runs_scored_0", weighted_cumsum_column base_df .runs weight teams is_team_0 is_team_1 false 0),
   ("wickets_lost_0", weighted_cumsum_column base_df .wickets weight teams is_team_0 is_team_1 false 0),
   ("deliveries_played_0", weighted_cumsum_column base_df .deliveries weight teams is_team_0 is_team_1 false 0),
   ("runs_conceded_0", weighted_cumsum_column base_df .runs weight teams is_team_0 is_team_1 true 0),
   ("wickets_taken_0", weighted_cumsum_column base_df .wickets weight teams is_team_0 is_team_1 true 0),
   ("deliveries_bowled_0", weighted_cumsum_column base_df .deliveries weight teams is_team_0 is_team_1 true 0),
   ("wins_0", wins 0),
   ("matches_0", matchCount 0),
   ("runs_scored_1", weighted_cumsum_column base_df .runs weight teams is_team_0 is_team_1 false 1),
   ("wickets_lost_1", weighted_cumsum_column base_df .wickets weight teams is_team_0 is_team_1 false 1),
   ("deliveries_played_1", weighted_cumsum_column base_df .deliveries weight teams is_team_0 is_team_1 false 1),
   ("runs_conceded_1", weighted_cumsum_column base_df .runs weight teams is_team_0 is_team_1 true 1),
   ("wickets_taken_1", weighted_cumsum_column base_df .wickets weight teams is_team_0 is_team_1 true 1),
   ("deliveries_bowled_1", weighted_cumsum_column base_df .deliveries weight teams is_team_0 is_team_1 true 1),
   ("wins_1", wins 1),
   ("matches_1", matchCount 1)]

/-- The eight aggregate kinds, for stating claims about the string-keyed
dict produced by `weighted_agg_stats`. -/
inductive StatKey
  | runs_scored
  | wickets_lost
  | deliveries_played
  | runs_conceded
  | wickets_taken
  | deliveries_bowled
  | wins
  | matchesPlayed
deriving Inhabited, DecidableEq, Repr

/-- The dict key `f"{stat}_{n}"` for an aggregate kind and a side. -/
def statKeyName (k : StatKey) (n : Fin 2) : String :=
  (match k with
   | .runs_scored => "runs_scored_"
   | .wickets_lost => "wickets_lost_"
   | .deliveries_played => "deliveries_played_"
   | .runs_conceded => "runs_conceded_"
   | .wickets_taken => "wickets_taken_"
   | .deliveries_bowled => "deliveries_bowled_"
   | .wins => "wins_"
   | .matchesPlayed => "matches_") ++ toString (n : Nat)

/-- Look an aggregate column up in the `weighted_agg_stats` dict. -/
def aggStat (base_df : List MatchRow) (weight : List ℚ) (teams : List String)
    (is_team_0 is_team_1 : String → List Bool) (k : StatKey) (n : Fin 2) : List ℚ :=
  ((weighted_agg_stats base_df weight teams is_team_0 is_team_1).lookup
    (statKeyName k n)).getD []

/-- Elementwise boolean or of two NumPy boolean arrays. -/
def listOr (a b : List Bool) : List Bool := List.zipWith (· || ·) a b

/-- The NumPy mask `arr == 0`. -/
def zeroMask (a : List ℚ) : List Bool := a.map (fun x => x == 0)

/-- `drop_zeros_in_denominator` (weights_util.py lines 183-204): starting
from an all-`False` condition, or in the `== 0` masks of the five divisor
aggregates for each side, then negate to get the keep-mask.  The dict
lookups use the keys built by `weighted_agg_stats`; they always succeed,
so the `getD []` default is dead. -/
def drop_zeros_in_denominator (base_df : List MatchRow) (weight : List ℚ)
    (teams : List String) (is_team_0 is_team_1 : String → List Bool) : List Bool :=
  let condition :=
    ([0, 1] : List Nat).foldl (fun cond n =>
      let weighted_stats := weighted_agg_stats base_df weight teams is_team_0 is_team_1
      let a := (weighted_stats.lookup ("wickets_lost_" ++ toString n)).getD []
      let b := (weighted_stats.lookup ("deliveries_played_" ++ toString n)).getD []
      let c := (weighted_stats.lookup ("wickets_taken_" ++ toString n)).getD []
      let d := (weighted_stats.lookup ("deliveries_bowled_" ++ toString n)).getD []
      let e := (weighted_stats.lookup ("matches_" ++ toString n)).getD []
      listOr (listOr (listOr (listOr (listOr cond (zeroMask a)) (zeroMask b))
        (zeroMask c)) (zeroMask d)) (zeroMask e))
      (List.replicate base_df.length false)
  condition.map (fun bb => !bb)

/-- The indicator dicts built in `build_features` (features.py lines 126-127):
`is_team_0 = {team: (base_df.team_0 == team) for team in teams}`. -/
def is_team_dict (base_df : List MatchRow) (n : Fin 2) : String → List Bool :=
  fun team => base_df.map (fun r => teamAt n r == team)

/-- The pair of raw series fed to `weighted_cumsum` for each aggregate kind,
read off `weighted_agg_stats`: batting stats use the raw `_0`/`_1` columns,
bowling stats the swapped columns, wins the `result == 0` / `result == 1`
indicators, matches the all-ones series. -/
def serPair (k : StatKey) (base_df : List MatchRow) : List ℚ × List ℚ :=
  match k with
  | .runs_scored => (base_df.map (colVal .runs 0), base_df.map (colVal .runs 1))
  | .wickets_lost => (base_df.map (colVal .wickets 0), base_df.map (colVal .wickets 1))
  | .deliveries_played => (base_df.map (colVal .deliveries 0), base_df.map (colVal .deliveries 1))
  | .runs_conceded => (base_df.map (colVal .runs 1), base_df.map (colVal .runs 0))
  | .wickets_taken => (base_df.map (colVal .wickets 1), base_df.map (colVal .wickets 0))
  | .deliveries_bowled => (base_df.map (colVal .deliveries 1), base_df.map (colVal .deliveries 0))
  | .wins => (base_df.map (fun r => boolToQ (r.result == 0)),
              base_df.map (fun r => boolToQ (r.result == 1)))
  | .matchesPlayed => (List.replicate base_df.length (1 : ℚ),
                       List.replicate base_df.length (1 : ℚ))

/-- Whether team `X` plays in a row (in either slot). -/
def teamPlays (X : String) (r : MatchRow) : Bool :=
  r.team_0 == X || r.team_1 == X

/-- The raw (unweighted) per-match contribution of team `X` in one row for
an aggregate kind — the statement-side re-derivation of what a single row
adds to `X`'s history: zero whenever `X` does not play in the row. -/
def perMatch (k : StatKey) (X : String) (r : MatchRow) : ℚ :=
  let i0 := boolToQ (r.team_0 == X)
  let i1 := boolToQ (r.team_1 == X)
  match k with
  | .runs_scored => (r.runs_0 : ℚ) * i0 + (r.runs_1 : ℚ) * i1
  | .wickets_lost => (r.wickets_0 : ℚ) * i0 + (r.wickets_1 : ℚ) * i1
  | .deliveries_played => (r.deliveries_0 : ℚ) * i0 + (r.deliveries_1 : ℚ) * i1
  | .runs_conceded => (r.runs_1 : ℚ) * i0 + (r.runs_0 : ℚ) * i1
  | .wickets_taken => (r.wickets_1 : ℚ) * i0 + (r.wickets_0 : ℚ) * i1
  | .deliveries_bowled => (r.deliveries_1 : ℚ) * i0 + (r.deliveries_0 : ℚ) * i1
  | .wins => boolToQ (r.result == 0) * i0 + boolToQ (r.result == 1) * i1
  | .matchesPlayed => 1 * i0 + 1 * i1

/-- The batting value recorded in a row for the side opposing team `X`
(zero when `X` is not in the row): used to state the amended role-swap
claim C4. -/
def opposingSideBattingValue (c : StatColumn) (X : String) (r : MatchRow) : ℚ :=
  if r.team_0 == X then colVal c 1 r
  else if r.team_1 == X then colVal c 0 r
  else 0

/-- The bowling-side aggregate kind derived from a raw column. -/
def bowlingKeyOf (c : StatColumn) : StatKey :=
  match c with
  | .runs => .runs_conceded
  | .wickets => .wickets_taken
  | .deliveries => .deliveries_bowled

/-- Modelled from the spec's words (refinement comparison, not from the
source): "the exclusive prefix weighted sum: at row i, sum over all rows
j<0..i of (weight_j × value_j), MINUS the row i's own (weight_i × value_i)
term". -/
def spec_exclusive_weighted_sum (weight value : List ℚ) (i : Nat) : ℚ :=
  (∑ j in Finset.range (i + 1), weight.getD j 0 * value.getD j 0)
    - weight.getD i 0 * value.getD i 0

/-- Modelled from the spec's words (refinement comparison, not from the
source): "equivalently: cumulative-sum-through-row-i of (value/weight)
then multiply by weight_i, subtracted by value_i itself". -/
def spec_alternative_form (weight value : List ℚ) (i : Nat) : ℚ :=
  weight.getD i 0 * (cumsum (List.zipWith (· / ·) value weight)).getD i 0
    - value.getD i 0

/-! ### Raw match records (`match_data_util.py`, `build_base_dataset.py`) -/

/-- One delivery entry of an over: total runs, extras, and whether the
`"wickets"` key is present in the ball dict. -/
structure Ball where
  runs_total : Nat
  runs_extras : Nat
  has_wicket : Bool
deriving Inhabited, DecidableEq, Repr

/-- One over of an innings: its number and its list of delivery entries
(which may exceed six when extras are re-bowled). -/
structure Over where
  over : Nat
  deliveries : List Ball
deriving Inhabited, DecidableEq, Repr

/-- One innings: the batting team and its overs. -/
structure Innings where
  team : String
  overs : List Over
deriving Inhabited, DecidableEq, Repr

/-- The parts of a raw nested match record (`info` and `innings` sections)
that the code reads.  `outcome_winner`/`outcome_result` model the optional
`outcome.winner` / `outcome.result` keys; the schema guarantees two teams,
so plain list indexing of `teams` is modelled with a `""` default. -/
structure RawMatch where
  teams : List String
  city : String
  dates : List String
  event_name : String
  toss_winner : String
  toss_decision : String
  outcome_winner : Option String
  outcome_result : Option String
  innings : List Innings
deriving Inhabited, DecidableEq, Repr

/-- Lexicographic strict comparison of char lists by code point — Python's
string `<`. -/
def strLtB : List Char → List Char → Bool
  | [], [] => false
  | [], _ :: _ => true
  | _ :: _, [] => false
  | a :: as, b :: bs =>
      if a.toNat < b.toNat then true
      else if b.toNat < a.toNat then false
      else strLtB as bs

/-- Python's string `<=`. -/
def pyStrLe (a b : String) : Bool := !(strLtB b.data a.data)

/-- Stable insertion of a string into a sorted list. -/
def orderedInsertB (a : String) : List String → List String
  | [] => [a]
  | b :: l => if pyStrLe a b then a :: b :: l else b :: orderedInsertB a l

/-- `list.sort()` for strings: stable sort by Python's code-point order. -/
def sortStrings (l : List String) : List String := l.foldr orderedInsertB []

/-- `teams.sort()` mutates `match_data["info"]["teams"]` in place; we model
the mutation by rebuilding the record with the sorted list. -/
def sortTeams (m : RawMatch) : RawMatch := { m with teams := sortStrings m.teams }

/-- `toss` (match_data_util.py lines 26-34): winner is 1 iff the team
listed second won the toss; decision is 0 for "bat", 1 for "field", and
None otherwise. -/
def toss (m : RawMatch) : Nat × Option Nat :=
  (if m.toss_winner == m.teams.getD 1 "" then 1 else 0,
   if m.toss_decision == "bat" then some 0
   else if m.toss_decision == "field" then some 1
   else none)

/-- `score_from_over` (match_data_util.py lines 38-49): the tuple
(runs, wickets, extras, deliveries) summed over the over's entries. -/
def score_from_over (over : Over) : Nat × Nat × Nat × Nat :=
  over.deliveries.foldl
    (fun acc ball =>
      (acc.1 + ball.runs_total,
       acc.2.1 + (if ball.has_wicket then 1 else 0),
       acc.2.2.1 + ball.runs_extras,
       acc.2.2.2 + 1))
    (0, 0, 0, 0)

/-- Python list indexing `l[i]`, with negative-index wrap-around; `none`
models `IndexError`. -/
def pyGet? {α : Type} (l : List α) (i : Int) : Option α :=
  if 0 ≤ i then l.get? i.toNat
  else if (-i).toNat ≤ l.length then l.get? (l.length - (-i).toNat) else none

/-- The scorecard dict built by `scorecard_after_over`: the over-ball pair
is kept as two fields. -/
structure Score where
  team : String
  runs : Nat
  wickets : Nat
  overs_o : Nat
  overs_b : Nat
  extras : Nat
deriving Inhabited, DecidableEq, Repr

/-- `scorecard_after_over` (match_data_util.py lines 53-77): totals over
the overs numbered below `overno`; the overs tuple is
`(len(overs) + divmod(last_over_deliveries, 6)[0] - 1,
divmod(last_over_deliveries, 6)[1])`. -/
def scorecard_after_over (m : RawMatch) (innings_num : Nat) (overno : Nat) :
    Except String Score :=
  if innings_num ≤ m.innings.length then
    match pyGet? m.innings ((innings_num : Int) - 1) with
    | none => Except.error "IndexError: innings"
    | some innings =>
      let team := innings.team
      let overs := innings.overs.filter (fun o => o.over < overno)
      if 0 < overno then
        match pyGet? overs (-1) with
        | none => Except.error "IndexError: overs"
        | some lastov =>
          let lastovdelv :=
            ((score_from_over lastov).2.2.2 / 6, (score_from_over lastov).2.2.2 % 6)
          Except.ok
            { team := team,
              runs := (overs.map (fun o => (score_from_over o).1)).sum,
              wickets := (overs.map (fun o => (score_from_over o).2.1)).sum,
              overs_o := overs.length + lastovdelv.1 - 1,
              overs_b := lastovdelv.2,
              extras := (overs.map (fun o => (score_from_over o).2.2.1)).sum }
      else
        Except.ok
          { team := team, runs := 0, wickets := 0, overs_o := 0, overs_b := 0,
            extras := 0 }
  else Except.error ("Innings not present: " ++ toString innings_num)

/-- A Python value as it occurs in the exclusive-or expression of
`get_scores`: an int, a bool, or None. -/
inductive PyVal
  | int (n : Int)
  | bool (b : Bool)
  | none
deriving DecidableEq, Repr

/-- Python truthiness. -/
def truthy : PyVal → Bool
  | .int n => n != 0
  | .bool b => b
  | .none => false

/-- Python `or`: returns the first operand when truthy, otherwise the
second. -/
def pyOr (a b : PyVal) : PyVal := if truthy a then a else b

/-- Python `and`: returns the first operand when falsy, otherwise the
second. -/
def pyAnd (a b : PyVal) : PyVal := if truthy a then b else a

/-- Python `not`. -/
def pyNot (a : PyVal) : PyVal := .bool (!truthy a)

/-- Python `int(...)` on the values that can reach it here; `int(None)`
raises `TypeError`. -/
def pyInt : PyVal → Except String Int
  | .int n => Except.ok n
  | .bool b => Except.ok (if b then 1 else 0)
  | .none => Except.error "TypeError: int() argument is None"

/-- `batfir = int((w or d) and (not w or not d))` of `get_scores`
(match_data_util.py line 84), with `d` possibly None. -/
def batfirst (w : Nat) (d : Option Nat) : Except String Int :=
  let wv : PyVal := .int w
  let dv : PyVal :=
    match d with
    | some k => .int k
    | Option.none => PyVal.none
  pyInt (pyAnd (pyOr wv dv) (pyOr (pyNot wv) (pyNot dv)))

/-- `get_scores` (match_data_util.py lines 81-93).  The returned dict
`{batfir: innings1, batsec: innings2}` is modelled as the pair
`(scores[0], scores[1])`; on every non-raising path `batfir ∈ {0, 1}` and
`batsec = int(not batfir)` is the other index. -/
def get_scores (m : RawMatch) : Except String (Score × Score) := do
  let w := (toss m).1
  let d := (toss m).2
  let batfir ← batfirst w d
  if m.innings.length = 2 then
    let s1 ← scorecard_after_over m 1 50
    let s2 ← scorecard_after_over m 2 50
    pure (if batfir = 0 then (s1, s2) else (s2, s1))
  else Except.error "Match not completed"

/-- `results` (match_data_util.py lines 97-104): 1 if the alphabetically
second team won, 0 if the first, None when no winner is recorded. -/
def results (m : RawMatch) : Option Nat :=
  let teams := sortStrings m.teams
  match m.outcome_winner with
  | some w => some (if w == teams.getD 1 "" then 1 else 0)
  | none => none

/-- The full normalized row built by `matchdict` for a match with a
recorded winner. -/
structure NormalizedRow where
  match_id : String
  country : String
  start_date : String
  event : String
  team_0 : String
  team_1 : String
  toss_winner : Nat
  toss_decision : Option Nat
  runs_0 : Nat
  wickets_0 : Nat
  deliveries_0 : Nat
  runs_1 : Nat
  wickets_1 : Nat
  deliveries_1 : Nat
  result : Option Nat
deriving Inhabited, DecidableEq, Repr

/-- The two shapes of dict `matchdict` returns: the two-key incomplete
record `{match_id, result: <free text>}`, or the full normalized row. -/
inductive MatchDict
  | incomplete (match_id : String) (result : String)
  | complete (row : NormalizedRow)
deriving DecidableEq, Repr

/-- `matchdict` (build_base_dataset.py lines 24-49).  `teams.sort()`
mutates the record, so `toss`, `get_scores` and `results` all see the
sorted list.  Dict-building evaluation order is preserved: `toss` and
`get_scores` run before the `city_to_country[...]` and `dates[0]`
lookups. -/
def matchdict (m : RawMatch) (match_id : String)
    (city_to_country : String → Option String) : Except String MatchDict :=
  let msorted := sortTeams m
  if msorted.outcome_winner.isNone then
    match msorted.outcome_result with
    | some res => Except.ok (.incomplete match_id res)
    | none => Except.error "KeyError: result"
  else do
    let toss_data := toss msorted
    let scores ← get_scores msorted
    let country ←
      match city_to_country msorted.city with
      | some c => Except.ok c
      | none => Except.error "KeyError: city"
    let start_date ←
      match msorted.dates.head? with
      | some d2 => Except.ok d2
      | none => Except.error "IndexError: dates"
    Except.ok (.complete
      { match_id := match_id, country := country, start_date := start_date,
        event := msorted.event_name,
        team_0 := msorted.teams.getD 0 "", team_1 := msorted.teams.getD 1 "",
        toss_winner := toss_data.1, toss_decision := toss_data.2,
        runs_0 := scores.1.runs, wickets_0 := scores.1.wickets,
        deliveries_0 := 6 * scores.1.overs_o + scores.1.overs_b,
        runs_1 := scores.2.runs, wickets_1 := scores.2.wickets,
        deliveries_1 := 6 * scores.2.overs_o + scores.2.overs_b,
        result := results msorted })

/-- Whether the raw record has `outcome.winner`. -/
def hasWinner (m : RawMatch) : Bool := m.outcome_winner.isSome

/-- Whether a produced dict is the two-key incomplete shape. -/
def isIncompleteRecord (r : MatchDict) : Bool :=
  match r with
  | .incomplete _ _ => true
  | .complete _ => false

/-- Whether some produced dict is a full row (so the 13 extra columns exist
in the assembled frame). -/
def hasCompleteRecord (rows : List MatchDict) : Bool :=
  rows.any (fun r => !(isIncompleteRecord r))

/-- Whether a dict has a non-null value in every one of the 15 columns. -/
def allFieldsSome (r : MatchDict) : Bool :=
  match r with
  | .incomplete _ _ => false
  | .complete row => row.toss_decision.isSome && row.result.isSome

/-- `pd.DataFrame.from_records(rows).dropna()` specialized to the two
shapes `matchdict` produces.  The frame's columns are the union of the
dict keys; a row is dropped when some existing column is NaN for it
(missing key, or a key whose value is None).  An incomplete record is NaN
in the 13 extra columns, which exist exactly when some complete record is
present; a complete record can only be NaN in `toss_decision` (None for an
unknown decision) or `result`. -/
def dropna (rows : List MatchDict) : List MatchDict :=
  rows.filter (fun r =>
    match r with
    | .incomplete _ _ => !(hasCompleteRecord rows)
    | .complete row => row.toss_decision.isSome && row.result.isSome)

/-- `build_db` (build_base_dataset.py lines 62-70): normalize every record
(any raised error aborts the build), assemble the frame and drop NaN
rows. -/
def build_db (records : List (String × RawMatch))
    (city_to_country : String → Option String) : Except String (List MatchDict) := do
  let rows ← records.mapM (fun p => matchdict p.2 p.1 city_to_country)
  pure (dropna rows)

/-! ### Features (`features.py`) -/

/-- Boolean-mask selection `series[mask]` on aligned pandas series. -/
def maskSelect {α : Type} (l : List α) (mask : List Bool) : List α :=
  ((l.zip mask).filter (fun p => p.2)).map (fun p => p.1)

/-- `home_advantage` (features.py lines 22-31): +1 when side n's team is
the match country, −1 when the other side's is, 0 otherwise (difference of
the two indicators). -/
def home_advantage (base_df : List MatchRow) (n : Fin 2) : List Int :=
  base_df.map (fun r =>
    (if teamAt n r == r.country then 1 else 0)
      - (if teamAt (1 - n) r == r.country then 1 else 0))

/-- Python dict indexing `weighted_stats[key]`; a missing key raises
`KeyError`. -/
def dget (d : List (String × List ℚ)) (k : String) : Except String (List ℚ) :=
  match d.lookup k with
  | some v => Except.ok v
  | none => Except.error ("KeyError: " ++ k)

/-- `win_percentage` (features.py lines 38-49).  The denominator key is
the source's literal string `"matches_{n}"` — the f-string prefix is
missing in the source, so the lookup raises `KeyError` for every n. -/
def win_percentage (weighted_stats : List (String × List ℚ)) (n : Fin 2)
    (filter_zeros : List Bool) : Except String (List ℚ) := do
  let wins ← dget weighted_stats ("wins_" ++ toString (n : Nat))
  let matchesList ← dget weighted_stats "matches_\x7bn\x7d"
  pure (List.zipWith (· / ·) ((maskSelect wins filter_zeros).map (fun x => 100 * x))
    (maskSelect matchesList filter_zeros))

/-- `batting_average` (features.py lines 54-66). -/
def batting_average (weighted_stats : List (String × List ℚ)) (n : Fin 2)
    (filter_zeros : List Bool) : Except String (List ℚ) := do
  let a ← dget weighted_stats ("runs_scored_" ++ toString (n : Nat))
  let b ← dget weighted_stats ("wickets_lost_" ++ toString (n : Nat))
  pure (List.zipWith (· / ·) (maskSelect a filter_zeros) (maskSelect b filter_zeros))

/-- `batting_strike_rate` (features.py lines 71-84). -/
def batting_strike_rate (weighted_stats : List (String × List ℚ)) (n : Fin 2)
    (filter_zeros : List Bool) : Except String (List ℚ) := do
  let a ← dget weighted_stats ("runs_scored_" ++ toString (n : Nat))
  let b ← dget weighted_stats ("deliveries_played_" ++ toString (n : Nat))
  pure (List.zipWith (· / ·) ((maskSelect a filter_zeros).map (fun x => 100 * x))
    (maskSelect b filter_zeros))

/-- `bowling_average` (features.py lines 89-101). -/
def bowling_average (weighted_stats : List (String × List ℚ)) (n : Fin 2)
    (filter_zeros : List Bool) : Except String (List ℚ) := do
  let a ← dget weighted_stats ("runs_conceded_" ++ toString (n : Nat))
  let b ← dget weighted_stats ("wickets_taken_" ++ toString (n : Nat))
  pure (List.zipWith (· / ·) (maskSelect a filter_zeros) (maskSelect b filter_zeros))

/-- `bowling_economy` (features.py lines 106-119). -/
def bowling_economy (weighted_stats : List (String × List ℚ)) (n : Fin 2)
    (filter_zeros : List Bool) : Except String (List ℚ) := do
  let a ← dget weighted_stats ("runs_conceded_" ++ toString (n : Nat))
  let b ← dget weighted_stats ("deliveries_bowled_" ++ toString (n : Nat))
  pure (List.zipWith (· / ·) ((maskSelect a filter_zeros).map (fun x => 6 * x))
    (maskSelect b filter_zeros))

/-- Round half to even (NumPy/pandas rounding), scaled to 2 decimals. -/
def roundHalfEven (x : ℚ) : ℤ :=
  let f := Int.floor x
  let frac := x - f
  if frac < 1/2 then f
  else if 1/2 < frac then f + 1
  else if f % 2 = 0 then f else f + 1

/-- `df.round(decimals=2)` on one rational entry. -/
def round2 (x : ℚ) : ℚ := (roundHalfEven (x * 100) : ℚ) / 100

/-- The feature frame assembled inside `build_features` (one list per
column, aligned to the kept rows). -/
structure FeatureTable where
  team_0 : List String
  team_1 : List String
  home_adv_0 : List Int
  batting_average_0 : List ℚ
  batting_sr_0 : List ℚ
  bowling_average_0 : List ℚ
  bowling_economy_0 : List ℚ
  home_adv_1 : List Int
  batting_average_1 : List ℚ
  batting_sr_1 : List ℚ
  bowling_average_1 : List ℚ
  bowling_economy_1 : List ℚ
deriving Inhabited, DecidableEq, Repr

/-- `build_features` (features.py lines 122-142).  The body assembles and
rounds the frame `df`, but the Python function has NO return statement:
it falls off the end and returns None (and `win_percentage` is never
called, so no win-percentage columns are built).  `Except.ok none` models
that implicit `return None`. -/
def build_features (base_df : List MatchRow) (teams : List String)
    (weight : List ℚ) : Except String (Option FeatureTable) := do
  let is_team_0 := is_team_dict base_df 0
  let is_team_1 := is_team_dict base_df 1
  let weighted_stats := weighted_agg_stats base_df weight teams is_team_0 is_team_1
  let filter_zeros := drop_zeros_in_denominator base_df weight teams is_team_0 is_team_1
  let ba0 ← batting_average weighted_stats 0 filter_zeros
  let bsr0 ← batting_strike_rate weighted_stats 0 filter_zeros
  let bav0 ← bowling_average weighted_stats 0 filter_zeros
  let be0 ← bowling_economy weighted_stats 0 filter_zeros
  let ba1 ← batting_average weighted_stats 1 filter_zeros
  let bsr1 ← batting_strike_rate weighted_stats 1 filter_zeros
  let bav1 ← bowling_average weighted_stats 1 filter_zeros
  let be1 ← bowling_economy weighted_stats 1 filter_zeros
  let df : FeatureTable :=
    { team_0 := maskSelect (base_df.map (fun r => r.team_0)) filter_zeros,
      team_1 := maskSelect (base_df.map (fun r => r.team_1)) filter_zeros,
      home_adv_0 := maskSelect (home_advantage base_df 0) filter_zeros,
      batting_average_0 := ba0.map round2,
      batting_sr_0 := bsr0.map round2,
      bowling_average_0 := bav0.map round2,
      bowling_economy_0 := be0.map round2,
      home_adv_1 := maskSelect (home_advantage base_df 1) filter_zeros,
      batting_average_1 := ba1.map round2,
      batting_sr_1 := bsr1.map round2,
      bowling_average_1 := bav1.map round2,
      bowling_economy_1 := be1.map round2 }
  pure none

/-- Concrete fixture: a completed two-innings record whose first over of
the first innings has SEVEN delivery entries (an extra was re-bowled), the
second over six. -/
def exMatchExtras : RawMatch :=
  ⟨["A", "B"], "c", ["d"], "e", "A", "bat", some "B", none,
   [⟨"A", [⟨0, List.replicate 7 ⟨1, 0, false⟩⟩, ⟨1, List.replicate 6 ⟨0, 0, false⟩⟩]⟩,
    ⟨"B", [⟨0, [⟨2, 0, false⟩]⟩]⟩]⟩

/-- Concrete fixture: a record WITH a recorded winner whose toss decision
is neither "bat" nor "field" and whose toss was won by the second-listed
team, so `matchdict` succeeds but with a null `toss_decision`. -/
def exMatchNullDecision : RawMatch :=
  ⟨["A", "B"], "c", ["d"], "e", "B", "abandoned", some "A", none,
   [⟨"B", [⟨0, [⟨4, 0, false⟩]⟩]⟩, ⟨"A", [⟨0, [⟨2, 0, false⟩]⟩]⟩]⟩

/-- Concrete fixture: a fully regular completed record. -/
def exMatchComplete : RawMatch :=
  ⟨["A", "B"], "c", ["d"], "e", "A", "bat", some "B", none,
   [⟨"A", [⟨0, [⟨3, 0, false⟩]⟩]⟩, ⟨"B", [⟨0, [⟨1, 0, false⟩]⟩]⟩]⟩

/-- Concrete fixture: a record with no recorded winner and a free-text
no-result code. -/
def exMatchNoWinner : RawMatch :=
  ⟨["A", "B"], "c", ["d"], "e", "A", "bat", none, some "no result", []⟩

/-! ### Basic list-access lemmas -/

lemma length_cumsum (x : List ℚ) : (cumsum x).length = x.length := by
  simp [cumsum]

lemma length_custom_cumsum (x : List ℚ) : (custom_cumsum x).length = x.length := by
  simp [custom_cumsum, length_cumsum]

lemma getD_map {α β : Type} (f : α → β) (l : List α) (i : Nat) (d : α) (d' : β)
    (h : i < l.length) : (l.map f).getD i d' = f (l.getD i d) := by
  simp [List.getD_eq_getElem?_getD, List.getElem?_map, List.getElem?_eq_getElem h]

lemma getD_zipWith {α β γ : Type} (f : α → β → γ) (l1 : List α) (l2 : List β)
    (i : Nat) (d1 : α) (d2 : β) (d3 : γ) (h1 : i < l1.length) (h2 : i < l2.length) :
    (List.zipWith f l1 l2).getD i d3 = f (l1.getD i d1) (l2.getD i d2) := by
  simp [List.getD_eq_getElem?_getD, List.getElem?_zipWith,
    List.getElem?_eq_getElem h1, List.getElem?_eq_getElem h2]

lemma getD_cumsum (x : List ℚ) (i : Nat) (hi : i < x.length) :
    (cumsum x).getD i 0 = (x.take (i + 1)).sum := by
  simp [cumsum, List.getD_eq_getElem?_getD, List.getElem?_map, List.getElem?_range hi]

lemma take_sum_eq_range (x : List ℚ) (i : Nat) (hi : i ≤ x.length) :
    (x.take i).sum = ∑ j in Finset.range i, x.getD j 0 := by
  induction i with
  | zero => simp
  | succ k ih =>
    have hk : k < x.length := hi
    rw [List.take_succ, List.sum_append, ih (le_of_lt hk), Finset.sum_range_succ,
      List.getElem?_eq_getElem hk]
    simp [List.getD_eq_getElem?_getD, List.getElem?_eq_getElem hk]

lemma getD_custom_cumsum (x : List ℚ) (i : Nat) (hi : i < x.length) :
    (custom_cumsum x).getD i 0 = ∑ j in Finset.range i, x.getD j 0 := by
  have h1 : i < (cumsum x).length := by rw [length_cumsum]; exact hi
  rw [custom_cumsum, getD_zipWith _ _ _ _ 0 0 0 h1 hi, getD_cumsum x i hi,
    take_sum_eq_range x (i + 1) hi, Finset.sum_range_succ]
  ring

/-- The central exclusive-prefix identity: entry `i` of the per-team column
`weight * custom_cumsum(ser / weight)` is `w_i · Σ_{j < i} ser_j / w_j`. -/
lemma weighted_cumsum_team_getD (v w : List ℚ) (i : Nat)
    (hv : v.length = w.length) (hi : i < w.length) :
    (weighted_cumsum_team v w).getD i 0
      = w.getD i 0 * ∑ j in Finset.range i, v.getD j 0 / w.getD j 0 := by
  have hz : (List.zipWith (· / ·) v w).length = w.length := by
    simp [List.length_zipWith, hv]
  rw [weighted_cumsum_team,
    getD_zipWith _ _ _ _ 0 0 0 hi (by rw [length_custom_cumsum, hz]; exact hi),
    getD_custom_cumsum _ _ (by rw [hz]; exact hi)]
  congr 1
  refine Finset.sum_congr rfl (fun j hj => ?_)
  have hji : j < i := Finset.mem_range.mp hj
  exact getD_zipWith _ _ _ _ 0 0 0 (by omega) (by omega)

lemma getD_range (N i : Nat) (hi : i < N) : (List.range N).getD i 0 = i := by
  simp [List.getD_eq_getElem?_getD, List.getElem?_range hi]

lemma team_series_length (s0 s1 : List ℚ) (is0 is1 : String → List Bool)
    (team : String) (N : Nat) (hs0 : s0.length = N) (hs1 : s1.length = N)
    (h0 : (is0 team).length = N) (h1 : (is1 team).length = N) :
    (team_series s0 s1 is0 is1 team).length = N := by
  simp [team_series, List.length_zipWith, hs0, hs1, h0, h1]

lemma team_series_getD (s0 s1 : List ℚ) (is0 is1 : String → List Bool)
    (team : String) (N j : Nat) (hs0 : s0.length = N) (hs1 : s1.length = N)
    (h0 : (is0 team).length = N) (h1 : (is1 team).length = N) (hj : j < N) :
    (team_series s0 s1 is0 is1 team).getD j 0
      = s0.getD j 0 * boolToQ ((is0 team).getD j false)
        + s1.getD j 0 * boolToQ ((is1 team).getD j false) := by
  rw [team_series,
    getD_zipWith _ _ _ _ 0 0 0 (by simp [List.length_zipWith, hs0, h0]; omega)
      (by simp [List.length_zipWith, hs1, h1]; omega),
    getD_zipWith _ _ _ _ 0 0 0 (by omega) (by simp [h0]; omega),
    getD_zipWith _ _ _ _ 0 0 0 (by omega) (by simp [h1]; omega),
    getD_map _ _ _ false 0 (by omega), getD_map _ _ _ false 0 (by omega)]

/-- The value the reprojection produces at row `i` when the row's slot-`n`
team is present in the teams list: the entry of that team's cumulative
column at row `i`. -/
lemma npProject_weighted_cumsum_getD (s0 s1 weight : List ℚ)
    (base_df : List MatchRow) (teams : List String)
    (is0 is1 : String → List Bool) (n : Fin 2) (i : Nat)
    (hs0 : s0.length = base_df.length) (hs1 : s1.length = base_df.length)
    (hw : weight.length = base_df.length)
    (h0 : (is0 (teamAt n (base_df.getD i default))).length = base_df.length)
    (h1 : (is1 (teamAt n (base_df.getD i default))).length = base_df.length)
    (hi : i < base_df.length)
    (ht : teamAt n (base_df.getD i default) ∈ teams) :
    (npProject (weighted_cumsum s0 s1 weight teams is0 is1)
        (indexer base_df teams n)).getD i 0
      = weight.getD i 0 * ∑ j in Finset.range i,
          (team_series s0 s1 is0 is1 (teamAt n (base_df.getD i default))).getD j 0
            / weight.getD j 0 := by
  set X := teamAt n (base_df.getD i default) with hX
  have hidx : List.indexOf X teams < teams.length := List.indexOf_lt_length.mpr ht
  have hrange : i < (List.range base_df.length).length := by simp [hi]
  have hmap : i < (base_df.map (fun r => get_indexer teams (teamAt n r))).length := by
    simp [hi]
  rw [npProject, indexer, getD_zipWith _ _ _ _ 0 0 0 hrange hmap,
    getD_range _ _ hi, getD_map _ _ _ default 0 hi, ← hX]
  rw [get_indexer, if_pos ht, npTake]
  have hnonneg : ¬ ((List.indexOf X teams : Int) < 0) := by
    simp
  rw [if_neg hnonneg]
  have htn : ((List.indexOf X teams : Int)).toNat = List.indexOf X teams := Int.toNat_natCast _
  rw [htn, weighted_cumsum, getD_map _ _ _ "" [] hidx]
  have hteams : teams.getD (List.indexOf X teams) "" = X := by
    rw [List.getD_eq_getElem?_getD, List.getElem?_eq_getElem hidx,
      List.getElem_indexOf hidx]
    rfl
  rw [hteams]
  exact weighted_cumsum_team_getD _ _ i
    (by rw [team_series_length s0 s1 is0 is1 X base_df.length hs0 hs1 h0 h1, hw])
    (by rw [hw]; exact hi)

/-! ### Claim C2 -/

/-- C2 counterexample: the implemented per-team column
`weight * custom_cumsum(ser / weight)` does NOT equal the spec's
"sum over rows j < i of (weight_j × value_j)" formulation.  With
values [1, 1] and weights [1, 2], at row 1 the implementation yields
2·(1/1) = 2 while the spec formula yields 1·1 = 1. -/
theorem C2_counterexample :
    (weighted_cumsum_team [1, 1] [1, 2]).getD 1 0
      ≠ spec_exclusive_weighted_sum [1, 2] [1, 1] 1 := by
  norm_num [weighted_cumsum_team, custom_cumsum, cumsum, spec_exclusive_weighted_sum,
    Finset.sum_range_succ, List.range_succ]

/-- C2 (amended): for every value series and weight series of equal length
and every row i, the implemented exclusive prefix weighted sum at row i
equals `weight_i · Σ_{j<i} (value_j / weight_j)` — each prior value decayed
by the weight ratio — and, provided `weight_i ≠ 0`, this coincides with the
spec's alternative formulation (cumulative sum through row i of
value/weight, multiplied by weight_i, with value_i subtracted).  It does
not, in general, equal the spec's other formulation
`Σ_{j<i} weight_j · value_j` (see the counterexample). -/
theorem C2_exclusive_weighted_sum_refinement (v w : List ℚ) (i : Nat)
    (hv : v.length = w.length) (hi : i < w.length) (hwi : w.getD i 0 ≠ 0) :
    (weighted_cumsum_team v w).getD i 0
      = w.getD i 0 * ∑ j in Finset.range i, v.getD j 0 / w.getD j 0
    ∧ (weighted_cumsum_team v w).getD i 0 = spec_alternative_form w v i := by
  have hz : (List.zipWith (· / ·) v w).length = w.length := by
    simp [List.length_zipWith, hv]
  refine ⟨weighted_cumsum_team_getD v w i hv hi, ?_⟩
  rw [weighted_cumsum_team_getD v w i hv hi, spec_alternative_form,
    getD_cumsum _ _ (by rw [hz]; exact hi), take_sum_eq_range _ _ (by rw [hz]; exact hi),
    Finset.sum_range_succ, getD_zipWith (· / ·) v w i 0 0 0 (by omega) hi, mul_add,
    mul_div_cancel₀ _ hwi]
  have : ∀ j ∈ Finset.range i, (List.zipWith (· / ·) v w).getD j 0
      = v.getD j 0 / w.getD j 0 := by
    intro j hj
    have hji : j < i := Finset.mem_range.mp hj
    exact getD_zipWith _ _ _ _ 0 0 0 (by omega) (by omega)
  rw [Finset.sum_congr rfl this]
  ring

/-! ### Claim C1 -/

lemma getD_map_col (f : MatchRow → ℚ) (base_df : List MatchRow) (j : Nat)
    (hj : j < base_df.length) : (base_df.map f).getD j 0 = f (base_df.getD j default) :=
  getD_map f base_df j default 0 hj

lemma is_team_dict_getD (base_df : List MatchRow) (n : Fin 2) (X : String) (j : Nat)
    (hj : j < base_df.length) :
    (is_team_dict base_df n X).getD j false = (teamAt n (base_df.getD j default) == X) :=
  getD_map _ _ _ default false hj

lemma getD_replicate_one (N j : Nat) (hj : j < N) :
    (List.replicate N (1 : ℚ)).getD j 0 = 1 := by
  simp [List.getD_eq_getElem?_getD, List.getElem?_replicate, hj]

/-- Each entry of `weighted_agg_stats` is the reprojection of the weighted
cumulative matrix built from the aggregate's raw series pair. -/
lemma aggStat_unfold (base_df : List MatchRow) (weight : List ℚ) (teams : List String)
    (is0 is1 : String → List Bool) (k : StatKey) (n : Fin 2) :
    aggStat base_df weight teams is0 is1 k n
      = npProject (weighted_cumsum (serPair k base_df).1 (serPair k base_df).2
          weight teams is0 is1) (indexer base_df teams n) := by
  cases k <;> fin_cases n <;> rfl

lemma serPair_fst_length (k : StatKey) (base_df : List MatchRow) :
    (serPair k base_df).1.length = base_df.length := by
  cases k <;> simp [serPair]

lemma serPair_snd_length (k : StatKey) (base_df : List MatchRow) :
    (serPair k base_df).2.length = base_df.length := by
  cases k <;> simp [serPair]

/-- The team virtual series built from an aggregate's raw pair and the
standard indicator dicts agrees row-by-row with the statement-side
`perMatch` contribution. -/
lemma team_series_eq_perMatch (k : StatKey) (X : String) (base_df : List MatchRow)
    (j : Nat) (hj : j < base_df.length) :
    (team_series (serPair k base_df).1 (serPair k base_df).2
        (is_team_dict base_df 0) (is_team_dict base_df 1) X).getD j 0
      = perMatch k X (base_df.getD j default) := by
  cases k <;>
    rw [team_series_getD _ _ _ _ _ base_df.length j
      (serPair_fst_length _ _) (serPair_snd_length _ _)
      (by simp [is_team_dict]) (by simp [is_team_dict]) hj] <;>
    simp [serPair, perMatch, getD_map_col, hj, teamAt, getD_replicate_one, colVal,
      is_team_dict, List.getElem?_map, List.getD_eq_getElem?_getD,
      List.getElem?_eq_getElem hj]

lemma perMatch_eq_zero (k : StatKey) (X : String) (r : MatchRow)
    (h : teamPlays X r = false) : perMatch k X r = 0 := by
  rw [teamPlays, Bool.or_eq_false_iff] at h
  cases k <;> simp [perMatch, boolToQ, h.1, h.2]

/-- Shared evaluation lemma: any `weighted_agg_stats` entry at a row whose
slot-`n` team is listed equals the decayed sum of that team's strictly
prior per-match contributions. -/
lemma aggStat_eq_weighted_sum (base_df : List MatchRow) (weight : List ℚ)
    (teams : List String) (k : StatKey) (n : Fin 2) (i : Nat)
    (hw : weight.length = base_df.length) (hi : i < base_df.length)
    (ht : teamAt n (base_df.getD i default) ∈ teams) :
    (aggStat base_df weight teams (is_team_dict base_df 0) (is_team_dict base_df 1)
        k n).getD i 0
      = weight.getD i 0 * ∑ j in Finset.range i,
          perMatch k (teamAt n (base_df.getD i default)) (base_df.getD j default)
            / weight.getD j 0 := by
  rw [aggStat_unfold,
    npProject_weighted_cumsum_getD _ _ _ _ _ _ _ n i
      (serPair_fst_length _ _) (serPair_snd_length _ _) hw
      (by simp [is_team_dict]) (by simp [is_team_dict]) hi ht]
  congr 1
  refine Finset.sum_congr rfl (fun j hj => ?_)
  rw [team_series_eq_perMatch k _ base_df j (lt_trans (Finset.mem_range.mp hj) hi)]

/-- C1: for every team, every one of the eight aggregates and every row i
of the base table, the weighted cumulative aggregate at row i equals
`w_i · Σ_{j<i} perMatch_j / w_j` — a sum over strictly earlier rows only,
in which rows where the team did not play contribute exactly zero — and
consequently all eight aggregates are exactly zero on the row of the
team's first-ever appearance. -/
theorem C1_exclusive_prior_aggregates (base_df : List MatchRow) (weight : List ℚ)
    (teams : List String) (k : StatKey) (n : Fin 2) (i : Nat)
    (hw : weight.length = base_df.length) (hi : i < base_df.length)
    (ht : teamAt n (base_df.getD i default) ∈ teams) :
    (aggStat base_df weight teams (is_team_dict base_df 0) (is_team_dict base_df 1)
        k n).getD i 0
      = weight.getD i 0 * ∑ j in Finset.range i,
          perMatch k (teamAt n (base_df.getD i default)) (base_df.getD j default)
            / weight.getD j 0
    ∧ ((∀ j, j < i →
          teamPlays (teamAt n (base_df.getD i default)) (base_df.getD j default) = false) →
        (aggStat base_df weight teams (is_team_dict base_df 0) (is_team_dict base_df 1)
            k n).getD i 0 = 0) := by
  have key := aggStat_eq_weighted_sum base_df weight teams k n i hw hi ht
  refine ⟨key, fun hfirst => ?_⟩
  rw [key]
  have hz : ∀ j ∈ Finset.range i,
      perMatch k (teamAt n (base_df.getD i default)) (base_df.getD j default)
        / weight.getD j 0 = 0 := by
    intro j hj
    rw [perMatch_eq_zero k _ _ (hfirst j (Finset.mem_range.mp hj)), zero_div]
  rw [Finset.sum_congr rfl hz, Finset.sum_const_zero, mul_zero]

/-- C1 witness: the theorem applied to a one-row table at its single row —
the (first-appearance) aggregate is zero. -/
theorem C1_witness :
    (([1] : List ℚ).length
        = [(⟨"A", "B", "I", 7, 2, 30, 5, 1, 24, 0⟩ : MatchRow)].length
      ∧ 0 < [(⟨"A", "B", "I", 7, 2, 30, 5, 1, 24, 0⟩ : MatchRow)].length)
    ∧ (aggStat [(⟨"A", "B", "I", 7, 2, 30, 5, 1, 24, 0⟩ : MatchRow)] [1] ["A", "B"]
        (is_team_dict [(⟨"A", "B", "I", 7, 2, 30, 5, 1, 24, 0⟩ : MatchRow)] 0)
        (is_team_dict [(⟨"A", "B", "I", 7, 2, 30, 5, 1, 24, 0⟩ : MatchRow)] 1)
        .runs_scored 0).getD 0 0 = 0 := by
  refine ⟨⟨rfl, by decide⟩, ?_⟩
  have h := C1_exclusive_prior_aggregates
    [(⟨"A", "B", "I", 7, 2, 30, 5, 1, 24, 0⟩ : MatchRow)] [1] ["A", "B"]
    .runs_scored 0 0 rfl (by decide) (by decide)
  exact h.2 (fun j hj => absurd hj (Nat.not_lt_zero j))

/-- C2 witness: the amended theorem applied at values [1, 1], weights
[1, 2], row 1. -/
theorem C2_witness :
    ([1, 1] : List ℚ).length = ([1, 2] : List ℚ).length ∧ (1 : Nat) < ([1, 2] : List ℚ).length
      ∧ ([1, 2] : List ℚ).getD 1 0 ≠ 0
      ∧ ((weighted_cumsum_team [1, 1] [1, 2]).getD 1 0
          = ([1, 2] : List ℚ).getD 1 0 * ∑ j in Finset.range 1,
              ([1, 1] : List ℚ).getD j 0 / ([1, 2] : List ℚ).getD j 0
        ∧ (weighted_cumsum_team [1, 1] [1, 2]).getD 1 0
          = spec_alternative_form [1, 2] [1, 1] 1) :=
  ⟨rfl, by norm_num, by norm_num,
    C2_exclusive_weighted_sum_refinement [1, 1] [1, 2] 1 rfl (by norm_num) (by norm_num)⟩

/-! ### Claim C5 -/

lemma listOr_length (a b : List Bool) : (listOr a b).length = min a.length b.length := by
  simp [listOr, List.length_zipWith]

lemma zeroMask_length (a : List ℚ) : (zeroMask a).length = a.length := by
  simp [zeroMask]

lemma aggStat_length (base_df : List MatchRow) (weight : List ℚ) (teams : List String)
    (is0 is1 : String → List Bool) (k : StatKey) (n : Fin 2) :
    (aggStat base_df weight teams is0 is1 k n).length = base_df.length := by
  rw [aggStat_unfold]
  simp [npProject, indexer, List.length_zipWith]

lemma listOr_getD (a b : List Bool) (i : Nat) (ha : i < a.length) (hb : i < b.length) :
    (listOr a b).getD i false = (a.getD i false || b.getD i false) :=
  getD_zipWith _ _ _ _ false false false ha hb

lemma zeroMask_getD (a : List ℚ) (i : Nat) (ha : i < a.length) :
    (zeroMask a).getD i false = (a.getD i 0 == 0) :=
  getD_map _ _ _ 0 false ha

lemma getD_map_not (l : List Bool) (i : Nat) (h : i < l.length) :
    (l.map (fun bb => !bb)).getD i true = !(l.getD i false) :=
  getD_map _ _ _ false true h

lemma replicate_false_getD (N i : Nat) (hi : i < N) :
    (List.replicate N false).getD i false = false := by
  simp [List.getD_eq_getElem?_getD, List.getElem?_replicate, hi]

/-- Closed form of the filter: the fold over the two sides and the dict
lookups reduce definitionally to the ten-fold elementwise or over the
divisor aggregates. -/
lemma drop_zeros_unfold (base_df : List MatchRow) (weight : List ℚ)
    (teams : List String) (is0 is1 : String → List Bool) :
    drop_zeros_in_denominator base_df weight teams is0 is1
      = (listOr (listOr (listOr (listOr (listOr
          (listOr (listOr (listOr (listOr (listOr
            (List.replicate base_df.length false)
            (zeroMask (aggStat base_df weight teams is0 is1 .wickets_lost 0)))
            (zeroMask (aggStat base_df weight teams is0 is1 .deliveries_played 0)))
            (zeroMask (aggStat base_df weight teams is0 is1 .wickets_taken 0)))
            (zeroMask (aggStat base_df weight teams is0 is1 .deliveries_bowled 0)))
            (zeroMask (aggStat base_df weight teams is0 is1 .matchesPlayed 0)))
            (zeroMask (aggStat base_df weight teams is0 is1 .wickets_lost 1)))
            (zeroMask (aggStat base_df weight teams is0 is1 .deliveries_played 1)))
            (zeroMask (aggStat base_df weight teams is0 is1 .wickets_taken 1)))
            (zeroMask (aggStat base_df weight teams is0 is1 .deliveries_bowled 1)))
            (zeroMask (aggStat base_df weight teams is0 is1 .matchesPlayed 1))).map
          (fun bb => !bb) :=
  rfl

/-- Pointwise value of the keep-mask: the negation of the ten-fold or of
the `== 0` tests on the five divisor aggregates of each side. -/
lemma drop_zeros_getD (base_df : List MatchRow) (weight : List ℚ) (teams : List String)
    (is0 is1 : String → List Bool) (i : Nat) (hi : i < base_df.length) :
    (drop_zeros_in_denominator base_df weight teams is0 is1).getD i true
      = !((aggStat base_df weight teams is0 is1 .wickets_lost 0).getD i 0 == 0
          || (aggStat base_df weight teams is0 is1 .deliveries_played 0).getD i 0 == 0
          || (aggStat base_df weight teams is0 is1 .wickets_taken 0).getD i 0 == 0
          || (aggStat base_df weight teams is0 is1 .deliveries_bowled 0).getD i 0 == 0
          || (aggStat base_df weight teams is0 is1 .matchesPlayed 0).getD i 0 == 0
          || (aggStat base_df weight teams is0 is1 .wickets_lost 1).getD i 0 == 0
          || (aggStat base_df weight teams is0 is1 .deliveries_played 1).getD i 0 == 0
          || (aggStat base_df weight teams is0 is1 .wickets_taken 1).getD i 0 == 0
          || (aggStat base_df weight teams is0 is1 .deliveries_bowled 1).getD i 0 == 0
          || (aggStat base_df weight teams is0 is1 .matchesPlayed 1).getD i 0 == 0) := by
  rw [drop_zeros_unfold]
  simp only [getD_map_not, listOr_getD, zeroMask_getD, replicate_false_getD,
    listOr_length, zeroMask_length, aggStat_length, List.length_replicate,
    min_self, hi, Bool.false_or]

/-- C5: the keep-mask returned by `drop_zeros_in_denominator` is aligned to
the base table rows, and is False at a row exactly when, for at least one
side n ∈ {0,1}, at least one of the five divisor aggregates
(wickets_lost, deliveries_played, wickets_taken, deliveries_bowled,
matches) is exactly zero at that row. -/
theorem C5_zero_denominator_mask (base_df : List MatchRow) (weight : List ℚ)
    (teams : List String) (is0 is1 : String → List Bool) (i : Nat)
    (hi : i < base_df.length) :
    (drop_zeros_in_denominator base_df weight teams is0 is1).length = base_df.length
    ∧ ((drop_zeros_in_denominator base_df weight teams is0 is1).getD i true = false
      ↔ ∃ n : Fin 2, ∃ k, k ∈ [StatKey.wickets_lost, StatKey.deliveries_played,
            StatKey.wickets_taken, StatKey.deliveries_bowled, StatKey.matchesPlayed]
          ∧ (aggStat base_df weight teams is0 is1 k n).getD i 0 = 0) := by
  constructor
  · rw [drop_zeros_unfold]
    simp [listOr_length, zeroMask_length, aggStat_length, List.length_replicate,
      min_self]
  · rw [drop_zeros_getD base_df weight teams is0 is1 i hi]
    have hbool : ∀ b : Bool, ((!b) = false ↔ b = true) := by decide
    rw [hbool]
    simp only [Bool.or_eq_true, beq_iff_eq]
    constructor
    · rintro (((((((((h|h)|h)|h)|h)|h)|h)|h)|h)|h)
      exacts [⟨0, .wickets_lost, by simp, h⟩, ⟨0, .deliveries_played, by simp, h⟩,
        ⟨0, .wickets_taken, by simp, h⟩, ⟨0, .deliveries_bowled, by simp, h⟩,
        ⟨0, .matchesPlayed, by simp, h⟩, ⟨1, .wickets_lost, by simp, h⟩,
        ⟨1, .deliveries_played, by simp, h⟩, ⟨1, .wickets_taken, by simp, h⟩,
        ⟨1, .deliveries_bowled, by simp, h⟩, ⟨1, .matchesPlayed, by simp, h⟩]
    · rintro ⟨n, k, hk, h⟩
      have hn : n = 0 ∨ n = 1 := by omega
      simp only [List.mem_cons, List.not_mem_nil, or_false] at hk
      rcases hn with rfl | rfl <;> rcases hk with rfl|rfl|rfl|rfl|rfl
      · exact .inl (.inl (.inl (.inl (.inl (.inl (.inl (.inl (.inl h))))))))
      · exact .inl (.inl (.inl (.inl (.inl (.inl (.inl (.inl (.inr h))))))))
      · exact .inl (.inl (.inl (.inl (.inl (.inl (.inl (.inr h)))))))
      · exact .inl (.inl (.inl (.inl (.inl (.inl (.inr h))))))
      · exact .inl (.inl (.inl (.inl (.inl (.inr h)))))
      · exact .inl (.inl (.inl (.inl (.inr h))))
      · exact .inl (.inl (.inl (.inr h)))
      · exact .inl (.inl (.inr h))
      · exact .inl (.inr h)
      · exact .inr h

/-- C5 witness: on a one-row table every aggregate of row 0 is an empty
history, so the mask is False there; the theorem's characterization applied
at that row. -/
theorem C5_witness :
    (0 < [(⟨"A", "B", "X", 7, 2, 30, 5, 1, 24, 0⟩ : MatchRow)].length)
    ∧ ((drop_zeros_in_denominator [(⟨"A", "B", "X", 7, 2, 30, 5, 1, 24, 0⟩ : MatchRow)]
          [1] ["A", "B"]
          (is_team_dict [(⟨"A", "B", "X", 7, 2, 30, 5, 1, 24, 0⟩ : MatchRow)] 0)
          (is_team_dict [(⟨"A", "B", "X", 7, 2, 30, 5, 1, 24, 0⟩ : MatchRow)] 1)).getD 0 true
        = false
      ↔ ∃ n : Fin 2, ∃ k, k ∈ [StatKey.wickets_lost, StatKey.deliveries_played,
            StatKey.wickets_taken, StatKey.deliveries_bowled, StatKey.matchesPlayed]
          ∧ (aggStat [(⟨"A", "B", "X", 7, 2, 30, 5, 1, 24, 0⟩ : MatchRow)] [1] ["A", "B"]
              (is_team_dict [(⟨"A", "B", "X", 7, 2, 30, 5, 1, 24, 0⟩ : MatchRow)] 0)
              (is_team_dict [(⟨"A", "B", "X", 7, 2, 30, 5, 1, 24, 0⟩ : MatchRow)] 1)
              k n).getD 0 0 = 0) :=
  ⟨by decide,
    (C5_zero_denominator_mask [(⟨"A", "B", "X", 7, 2, 30, 5, 1, 24, 0⟩ : MatchRow)]
      [1] ["A", "B"]
      (is_team_dict [(⟨"A", "B", "X", 7, 2, 30, 5, 1, 24, 0⟩ : MatchRow)] 0)
      (is_team_dict [(⟨"A", "B", "X", 7, 2, 30, 5, 1, 24, 0⟩ : MatchRow)] 1)
      0 (by decide)).2⟩

/-! ### Except evaluation helpers -/

lemma ok_bind {α β : Type} (a : α) (f : α → Except String β) :
    (Except.ok a >>= f) = f a := rfl

lemma error_bind {α β : Type} (e : String) (f : α → Except String β) :
    ((Except.error e : Except String α) >>= f) = Except.error e := rfl

/-! ### Claim C3 -/

/-- C3 (code bug): `build_features` assembles and rounds the feature frame
but has no return statement, so it returns None for every input — the
claimed feature table (with its five ratio statistics per side) is never
returned; moreover `win_percentage`, the function that would compute the
fifth statistic, indexes the aggregate dict with the literal key
"matches_(n)" (a missing f-string prefix) and raises KeyError whenever
called, and `build_features` never calls it. -/
theorem C3_build_features_returns_none :
    (∀ (base_df : List MatchRow) (teams : List String) (weight : List ℚ),
      build_features base_df teams weight = Except.ok none)
    ∧ (∀ (base_df : List MatchRow) (weight : List ℚ) (teams : List String)
        (is0 is1 : String → List Bool) (n : Fin 2) (filter_zeros : List Bool),
        win_percentage (weighted_agg_stats base_df weight teams is0 is1) n filter_zeros
          = Except.error "KeyError: matches_\x7bn\x7d") := by
  refine ⟨fun base_df teams weight => rfl, fun base_df weight teams is0 is1 n fz => ?_⟩
  fin_cases n <;> rfl

/-! ### Claim C7 -/

/-- For 0/1 toss data the Python truthiness expression computes exactly the
exclusive or. -/
lemma batfirst_xor (w d : Nat) (hw : w ≤ 1) (hd : d ≤ 1) :
    batfirst w (some d) = Except.ok (Nat.xor w d : Int) := by
  interval_cases w <;> interval_cases d <;> rfl

/-- C7: with both toss fields defined, `get_scores` places the first
innings' scorecard at side index `XOR(toss winner, toss decision)` — index
1 exactly when one of {winner is team_1, decision is field} holds — and
the second innings' scorecard at the opposite index. -/
theorem C7_batting_first_xor (m : RawMatch) (d : Nat)
    (hd : (toss m).2 = some d) (hin : m.innings.length = 2) (s1 s2 : Score)
    (h1 : scorecard_after_over m 1 50 = Except.ok s1)
    (h2 : scorecard_after_over m 2 50 = Except.ok s2) :
    get_scores m = Except.ok
      (if Nat.xor (toss m).1 d = 0 then (s1, s2) else (s2, s1)) := by
  have hw : (toss m).1 ≤ 1 := by
    have he : (toss m).1 = if (m.toss_winner == m.teams.getD 1 "") then 1 else 0 := rfl
    rw [he]
    split <;> omega
  have hd1 : d ≤ 1 := by
    have he : (toss m).2 = if (m.toss_decision == "bat") then some 0
        else if (m.toss_decision == "field") then some 1 else none := rfl
    rw [he] at hd
    split_ifs at hd <;> simp_all <;> omega
  rw [get_scores, hd, batfirst_xor _ _ hw hd1, ok_bind]
  simp only [hin, if_pos]
  rw [h1, ok_bind, h2, ok_bind]
  have : ((Nat.xor (toss m).1 d : Int) = 0) ↔ (Nat.xor (toss m).1 d = 0) := by
    exact_mod_cast Int.natCast_eq_zero
  by_cases hx : Nat.xor (toss m).1 d = 0
  · simp [hx, this, pure, Except.pure]
  · simp [hx, this, pure, Except.pure]

/-- C7 witness: the theorem applied to a complete two-innings record whose
toss was won by the second-listed team choosing to field (XOR = 0, so the
first innings' scorecard sits at index 0). -/
theorem C7_witness :
    ((toss (⟨["A", "B"], "C", ["2023-01-01"], "E", "B", "field", some "A", none,
        [⟨"B", [⟨0, [⟨4, 0, false⟩, ⟨1, 0, true⟩]⟩]⟩, ⟨"A", [⟨0, [⟨2, 1, false⟩]⟩]⟩]⟩
        : RawMatch)).2 = some 1
      ∧ (⟨["A", "B"], "C", ["2023-01-01"], "E", "B", "field", some "A", none,
          [⟨"B", [⟨0, [⟨4, 0, false⟩, ⟨1, 0, true⟩]⟩]⟩, ⟨"A", [⟨0, [⟨2, 1, false⟩]⟩]⟩]⟩
          : RawMatch).innings.length = 2
      ∧ scorecard_after_over (⟨["A", "B"], "C", ["2023-01-01"], "E", "B", "field",
          some "A", none,
          [⟨"B", [⟨0, [⟨4, 0, false⟩, ⟨1, 0, true⟩]⟩]⟩, ⟨"A", [⟨0, [⟨2, 1, false⟩]⟩]⟩]⟩
          : RawMatch) 1 50 = Except.ok ⟨"B", 5, 1, 0, 2, 0⟩
      ∧ scorecard_after_over (⟨["A", "B"], "C", ["2023-01-01"], "E", "B", "field",
          some "A", none,
          [⟨"B", [⟨0, [⟨4, 0, false⟩, ⟨1, 0, true⟩]⟩]⟩, ⟨"A", [⟨0, [⟨2, 1, false⟩]⟩]⟩]⟩
          : RawMatch) 2 50 = Except.ok ⟨"A", 2, 0, 0, 1, 1⟩)
    ∧ get_scores (⟨["A", "B"], "C", ["2023-01-01"], "E", "B", "field", some "A", none,
        [⟨"B", [⟨0, [⟨4, 0, false⟩, ⟨1, 0, true⟩]⟩]⟩, ⟨"A", [⟨0, [⟨2, 1, false⟩]⟩]⟩]⟩
        : RawMatch)
      = Except.ok
          (if Nat.xor (toss (⟨["A", "B"], "C", ["2023-01-01"], "E", "B", "field",
              some "A", none,
              [⟨"B", [⟨0, [⟨4, 0, false⟩, ⟨1, 0, true⟩]⟩]⟩,
               ⟨"A", [⟨0, [⟨2, 1, false⟩]⟩]⟩]⟩ : RawMatch)).1 1 = 0
            then ((⟨"B", 5, 1, 0, 2, 0⟩ : Score), (⟨"A", 2, 0, 0, 1, 1⟩ : Score))
            else ((⟨"A", 2, 0, 0, 1, 1⟩ : Score), (⟨"B", 5, 1, 0, 2, 0⟩ : Score))) :=
  ⟨⟨rfl, rfl, rfl, rfl⟩,
    C7_batting_first_xor
      (⟨["A", "B"], "C", ["2023-01-01"], "E", "B", "field", some "A", none,
        [⟨"B", [⟨0, [⟨4, 0, false⟩, ⟨1, 0, true⟩]⟩]⟩, ⟨"A", [⟨0, [⟨2, 1, false⟩]⟩]⟩]⟩
        : RawMatch) 1 rfl rfl ⟨"B", 5, 1, 0, 2, 0⟩ ⟨"A", 2, 0, 0, 1, 1⟩ rfl rfl⟩

/-! ### Claim C6 -/

/-- C6 counterexample: a record WITH a recorded winner whose toss decision
is neither "bat" nor "field" and whose toss was won by the first-listed
team makes `matchdict` raise `TypeError` (Python's `int(None)`) instead of
returning a complete normalized record. -/
theorem C6_counterexample :
    matchdict (⟨["A", "B"], "c", ["d"], "e", "A", "abandoned", some "A", none, []⟩
        : RawMatch) "m1" (fun _ => some "Z")
      = Except.error "TypeError: int() argument is None" := rfl

/-- C6 (amended): `toss` returns decision 0 for "bat", 1 for "field" and
null otherwise; for a record with a recorded winner and a null decision,
`matchdict` raises a `TypeError` (from `int(None)`) when the toss winner
is the first-listed team, and only when the toss winner is the
second-listed team does it still return a complete normalized record with
`toss_decision` null (the null behaving as if "bat" had been chosen). -/
theorem C6_unknown_toss_decision :
    (∀ m : RawMatch,
      ((toss m).2 = none ↔ (m.toss_decision ≠ "bat" ∧ m.toss_decision ≠ "field"))
      ∧ (m.toss_decision = "bat" → (toss m).2 = some 0)
      ∧ (m.toss_decision = "field" → (toss m).2 = some 1))
    ∧ (∀ (m : RawMatch) (mid : String) (c2c : String → Option String),
        hasWinner m = true → (toss (sortTeams m)).1 = 0 →
        (toss (sortTeams m)).2 = none →
        matchdict m mid c2c = Except.error "TypeError: int() argument is None")
    ∧ (∀ (m : RawMatch) (mid : String) (c2c : String → Option String)
        (c dt : String) (s1 s2 : Score),
        hasWinner m = true → (toss (sortTeams m)).1 = 1 →
        (toss (sortTeams m)).2 = none →
        m.innings.length = 2 →
        scorecard_after_over m 1 50 = Except.ok s1 →
        scorecard_after_over m 2 50 = Except.ok s2 →
        c2c m.city = some c → m.dates.head? = some dt →
        matchdict m mid c2c = Except.ok (.complete
          { match_id := mid, country := c, start_date := dt, event := m.event_name,
            team_0 := (sortStrings m.teams).getD 0 "",
            team_1 := (sortStrings m.teams).getD 1 "",
            toss_winner := 1, toss_decision := none,
            runs_0 := s2.runs, wickets_0 := s2.wickets,
            deliveries_0 := 6 * s2.overs_o + s2.overs_b,
            runs_1 := s1.runs, wickets_1 := s1.wickets,
            deliveries_1 := 6 * s1.overs_o + s1.overs_b,
            result := results (sortTeams m) })
          ∧ (results (sortTeams m)).isSome = true) := by
  refine ⟨fun m => ⟨?_, fun hb => ?_, fun hf => ?_⟩, fun m mid c2c hwin hw0 hdn => ?_,
    fun m mid c2c c dt s1 s2 hwin hw1 hdn hin h1 h2 hc hdt => ?_⟩
  · have he : (toss m).2 = if (m.toss_decision == "bat") then some 0
        else if (m.toss_decision == "field") then some 1 else none := rfl
    rw [he]
    constructor
    · intro h
      by_cases hb : m.toss_decision = "bat"
      · rw [if_pos (by simpa using hb)] at h
        simp at h
      · by_cases hf : m.toss_decision = "field"
        · rw [if_neg (by simpa using hb), if_pos (by simpa using hf)] at h
          simp at h
        · exact ⟨hb, hf⟩
    · rintro ⟨hb, hf⟩
      rw [if_neg (by simpa using hb), if_neg (by simpa using hf)]
  · have he : (toss m).2 = if (m.toss_decision == "bat") then some 0
        else if (m.toss_decision == "field") then some 1 else none := rfl
    rw [he, if_pos (by simpa using hb)]
  · have he : (toss m).2 = if (m.toss_decision == "bat") then some 0
        else if (m.toss_decision == "field") then some 1 else none := rfl
    have hb : m.toss_decision ≠ "bat" := by
      intro hcon
      rw [hcon] at hf
      simp at hf
    rw [he, if_neg (by simpa using hb), if_pos (by simpa using hf)]
  · obtain ⟨w, hww⟩ := Option.isSome_iff_exists.mp hwin
    have hnn : (sortTeams m).outcome_winner.isNone = false := by
      have he : (sortTeams m).outcome_winner = m.outcome_winner := rfl
      rw [he, hww]
      rfl
    rw [matchdict]
    simp only [hnn, Bool.false_eq_true, if_false]
    rw [get_scores]
    simp only [hw0, hdn]
    have hb : batfirst 0 none = Except.error "TypeError: int() argument is None" := rfl
    rw [hb, error_bind, error_bind]
  · obtain ⟨w, hww⟩ := Option.isSome_iff_exists.mp hwin
    have hnn : (sortTeams m).outcome_winner.isNone = false := by
      have he : (sortTeams m).outcome_winner = m.outcome_winner := rfl
      rw [he, hww]
      rfl
    constructor
    · rw [matchdict]
      simp only [hnn, Bool.false_eq_true, if_false]
      rw [get_scores]
      simp only [hw1, hdn]
      have hb : batfirst 1 none = Except.ok 1 := rfl
      rw [hb, ok_bind]
      have hin' : (sortTeams m).innings.length = 2 := hin
      simp only [hin', if_pos]
      have h1' : scorecard_after_over (sortTeams m) 1 50 = Except.ok s1 := h1
      have h2' : scorecard_after_over (sortTeams m) 2 50 = Except.ok s2 := h2
      rw [h1', ok_bind, h2', ok_bind]
      have hone : ((1 : Int) = 0) = False := by simp
      simp only [pure, Except.pure, hone, if_false, ok_bind]
      have hc' : c2c (sortTeams m).city = some c := hc
      rw [hc']
      have hdt' : (sortTeams m).dates.head? = some dt := hdt
      rw [hdt']
      rfl
    · have he : results (sortTeams m)
          = match m.outcome_winner with
            | some w => some (if w == (sortStrings (sortStrings m.teams)).getD 1 ""
                then 1 else 0)
            | none => none := rfl
      rw [he, hww]
      rfl

/-- C6 witness: the amended theorem's w = 1 branch applied to a concrete
record with winner recorded and toss decision "abandoned". -/
theorem C6_witness :
    (hasWinner (⟨["A", "B"], "c", ["d"], "e", "B", "abandoned", some "A", none,
        [⟨"B", [⟨0, [⟨4, 0, false⟩]⟩]⟩, ⟨"A", [⟨0, [⟨2, 0, false⟩]⟩]⟩]⟩ : RawMatch) = true
      ∧ (toss (sortTeams (⟨["A", "B"], "c", ["d"], "e", "B", "abandoned", some "A", none,
          [⟨"B", [⟨0, [⟨4, 0, false⟩]⟩]⟩, ⟨"A", [⟨0, [⟨2, 0, false⟩]⟩]⟩]⟩ : RawMatch))).1 = 1
      ∧ (toss (sortTeams (⟨["A", "B"], "c", ["d"], "e", "B", "abandoned", some "A", none,
          [⟨"B", [⟨0, [⟨4, 0, false⟩]⟩]⟩, ⟨"A", [⟨0, [⟨2, 0, false⟩]⟩]⟩]⟩ : RawMatch))).2 = none)
    ∧ (matchdict (⟨["A", "B"], "c", ["d"], "e", "B", "abandoned", some "A", none,
          [⟨"B", [⟨0, [⟨4, 0, false⟩]⟩]⟩, ⟨"A", [⟨0, [⟨2, 0, false⟩]⟩]⟩]⟩ : RawMatch)
          "m1" (fun _ => some "Z")
        = Except.ok (.complete
          { match_id := "m1", country := "Z", start_date := "d", event := "e",
            team_0 := (sortStrings (["A", "B"] : List String)).getD 0 "",
            team_1 := (sortStrings (["A", "B"] : List String)).getD 1 "",
            toss_winner := 1, toss_decision := none,
            runs_0 := (⟨"A", 2, 0, 0, 1, 0⟩ : Score).runs,
            wickets_0 := (⟨"A", 2, 0, 0, 1, 0⟩ : Score).wickets,
            deliveries_0 := 6 * (⟨"A", 2, 0, 0, 1, 0⟩ : Score).overs_o
              + (⟨"A", 2, 0, 0, 1, 0⟩ : Score).overs_b,
            runs_1 := (⟨"B", 4, 0, 0, 1, 0⟩ : Score).runs,
            wickets_1 := (⟨"B", 4, 0, 0, 1, 0⟩ : Score).wickets,
            deliveries_1 := 6 * (⟨"B", 4, 0, 0, 1, 0⟩ : Score).overs_o
              + (⟨"B", 4, 0, 0, 1, 0⟩ : Score).overs_b,
            result := results (sortTeams (⟨["A", "B"], "c", ["d"], "e", "B", "abandoned",
              some "A", none,
              [⟨"B", [⟨0, [⟨4, 0, false⟩]⟩]⟩, ⟨"A", [⟨0, [⟨2, 0, false⟩]⟩]⟩]⟩ : RawMatch)) })
        ∧ (results (sortTeams (⟨["A", "B"], "c", ["d"], "e", "B", "abandoned", some "A",
            none, [⟨"B", [⟨0, [⟨4, 0, false⟩]⟩]⟩, ⟨"A", [⟨0, [⟨2, 0, false⟩]⟩]⟩]⟩
            : RawMatch))).isSome = true) :=
  ⟨⟨rfl, rfl, rfl⟩,
    C6_unknown_toss_decision.2.2
      (⟨["A", "B"], "c", ["d"], "e", "B", "abandoned", some "A", none,
        [⟨"B", [⟨0, [⟨4, 0, false⟩]⟩]⟩, ⟨"A", [⟨0, [⟨2, 0, false⟩]⟩]⟩]⟩ : RawMatch)
      "m1" (fun _ => some "Z") "Z" "d" ⟨"B", 4, 0, 0, 1, 0⟩ ⟨"A", 2, 0, 0, 1, 0⟩
      rfl rfl rfl rfl rfl rfl rfl rfl⟩

/-! ### Claim C8 -/

lemma sum_map_six {α : Type} (l : List α) (f : α → Nat) (h : ∀ o ∈ l, f o = 6) :
    (l.map f).sum = 6 * l.length := by
  induction l with
  | nil => simp
  | cons a t ih =>
    simp only [List.map_cons, List.sum_cons, List.length_cons, h a (by simp),
      ih (fun o ho => h o (by simp [ho]))]
    ring

/-- C8 counterexample: the `matchdict` row for `exMatchExtras` records
deliveries_0 = 12 (6·(2−1)+6), while the delivery entries summed across
the innings' overs total 13 — the recorded value is not the sum across
overs. -/
theorem C8_counterexample :
    matchdict exMatchExtras "m" (fun _ => some "Z")
      = Except.ok (.complete ⟨"m", "Z", "d", "e", "A", "B", 0, some 0,
          7, 0, 12, 2, 0, 1, some 1⟩)
    ∧ ((((exMatchExtras.innings.getD 0 default).overs.filter
          (fun o => o.over < 50)).map (fun o => (score_from_over o).2.2.2)).sum = 13)
    ∧ ((⟨"m", "Z", "d", "e", "A", "B", 0, some 0, 7, 0, 12, 2, 0, 1, some 1⟩
          : NormalizedRow).deliveries_0
        ≠ (((exMatchExtras.innings.getD 0 default).overs.filter
            (fun o => o.over < 50)).map (fun o => (score_from_over o).2.2.2)).sum) :=
  ⟨rfl, rfl, by decide⟩

/-- C8 (amended): the per-innings deliveries value flattened from the
scorecard's overs pair equals 6 × (number of recorded overs − 1) plus the
delivery count of the LAST over; it equals the total delivery count summed
across all overs exactly when every over except the last has six recorded
deliveries. -/
theorem C8_deliveries_from_overs (m : RawMatch) (innings_num overno : Nat)
    (inn : Innings) (s : Score) (lastov : Over)
    (hle : innings_num ≤ m.innings.length)
    (hinn : pyGet? m.innings ((innings_num : Int) - 1) = some inn)
    (hno : 0 < overno)
    (hlast : pyGet? (inn.overs.filter (fun o => o.over < overno)) (-1) = some lastov)
    (hs : scorecard_after_over m innings_num overno = Except.ok s) :
    6 * s.overs_o + s.overs_b
      = 6 * ((inn.overs.filter (fun o => o.over < overno)).length - 1)
        + (score_from_over lastov).2.2.2
    ∧ ((∀ o ∈ (inn.overs.filter (fun o => o.over < overno)).dropLast,
          (score_from_over o).2.2.2 = 6) →
        6 * s.overs_o + s.overs_b
          = ((inn.overs.filter (fun o => o.over < overno)).map
              (fun o => (score_from_over o).2.2.2)).sum) := by
  set l := inn.overs.filter (fun o => o.over < overno) with hl
  have hlen : 1 ≤ l.length := by
    by_contra hcon
    have h0 : l.length = 0 := by omega
    rw [pyGet?] at hlast
    simp [h0] at hlast
  rw [scorecard_after_over, if_pos hle, hinn] at hs
  dsimp only [] at hs
  rw [if_pos hno] at hs
  rw [← hl] at hs
  rw [hlast] at hs
  dsimp only [] at hs
  have hrec := Except.ok.inj hs
  have ho : s.overs_o = l.length + (score_from_over lastov).2.2.2 / 6 - 1 := by
    rw [← hrec]
  have hb : s.overs_b = (score_from_over lastov).2.2.2 % 6 := by
    rw [← hrec]
  have key : 6 * s.overs_o + s.overs_b
      = 6 * (l.length - 1) + (score_from_over lastov).2.2.2 := by
    rw [ho, hb]
    omega
  refine ⟨key, fun hall => ?_⟩
  rw [key]
  have hne : l ≠ [] := List.length_pos.mp (by omega)
  have hsplit := List.dropLast_append_getLast hne
  rw [← hsplit, List.map_append, List.sum_append,
    sum_map_six _ _ hall, List.length_dropLast]
  have hget : l.getLast hne = lastov := by
    rw [pyGet?] at hlast
    have h1 : ¬ ((0 : Int) ≤ -1) := by omega
    rw [if_neg h1, if_pos (by simpa using hlen)] at hlast
    have h2 : l.get? (l.length - ((1 : Int)).toNat) = l.getLast? := by
      rw [List.get?_eq_getElem?, List.getLast?_eq_getElem?]
      norm_num
    rw [show ((-(-1 : Int))).toNat = ((1 : Int)).toNat from rfl] at hlast
    rw [h2, List.getLast?_eq_getLast _ hne] at hlast
    exact Option.some.inj hlast
  rw [hget]
  simp

/-- C8 witness: the amended theorem applied to the second innings of
`exMatchExtras` (a single over of one delivery): the recorded value
6·0+1 = 1 equals both forms. -/
theorem C8_witness :
    ((2 : Nat) ≤ exMatchExtras.innings.length
      ∧ pyGet? exMatchExtras.innings ((2 : Int) - 1)
          = some ⟨"B", [⟨0, [⟨2, 0, false⟩]⟩]⟩
      ∧ (0 : Nat) < 50
      ∧ pyGet? (((⟨"B", [⟨0, [⟨2, 0, false⟩]⟩]⟩ : Innings)).overs.filter
          (fun o => o.over < 50)) (-1) = some ⟨0, [⟨2, 0, false⟩]⟩
      ∧ scorecard_after_over exMatchExtras 2 50 = Except.ok ⟨"B", 2, 0, 0, 1, 0⟩)
    ∧ (6 * (⟨"B", 2, 0, 0, 1, 0⟩ : Score).overs_o + (⟨"B", 2, 0, 0, 1, 0⟩ : Score).overs_b
        = 6 * ((((⟨"B", [⟨0, [⟨2, 0, false⟩]⟩]⟩ : Innings)).overs.filter
            (fun o => o.over < 50)).length - 1)
          + (score_from_over ⟨0, [⟨2, 0, false⟩]⟩).2.2.2
      ∧ ((∀ o ∈ (((⟨"B", [⟨0, [⟨2, 0, false⟩]⟩]⟩ : Innings)).overs.filter
            (fun o => o.over < 50)).dropLast, (score_from_over o).2.2.2 = 6) →
          6 * (⟨"B", 2, 0, 0, 1, 0⟩ : Score).overs_o
              + (⟨"B", 2, 0, 0, 1, 0⟩ : Score).overs_b
            = ((((⟨"B", [⟨0, [⟨2, 0, false⟩]⟩]⟩ : Innings)).overs.filter
                (fun o => o.over < 50)).map (fun o => (score_from_over o).2.2.2)).sum)) :=
  ⟨⟨by decide, rfl, by decide, rfl, rfl⟩,
    C8_deliveries_from_overs exMatchExtras 2 50 ⟨"B", [⟨0, [⟨2, 0, false⟩]⟩]⟩
      ⟨"B", 2, 0, 0, 1, 0⟩ ⟨0, [⟨2, 0, false⟩]⟩ (by decide) rfl (by decide) rfl rfl⟩

/-! ### Claim C9 -/

/-- Shape of `matchdict` when the record has no recorded winner: either
`KeyError: result` or the two-key incomplete dict. -/
lemma matchdict_no_winner_shape (m : RawMatch) (mid : String)
    (c2c : String → Option String) (hwm : m.outcome_winner.isNone = true) :
    matchdict m mid c2c = Except.error "KeyError: result"
    ∨ ∃ res, m.outcome_result = some res
        ∧ matchdict m mid c2c = Except.ok (.incomplete mid res) := by
  have he : (sortTeams m).outcome_winner.isNone = true := hwm
  rw [matchdict]
  simp only [he, if_true]
  rcases hres : m.outcome_result with _ | res
  · left
    have he2 : (sortTeams m).outcome_result = m.outcome_result := rfl
    rw [he2, hres]
  · right
    refine ⟨res, rfl, ?_⟩
    have he2 : (sortTeams m).outcome_result = m.outcome_result := rfl
    rw [he2, hres]

/-- Shape of `matchdict` when the record has a recorded winner: either an
error from one of the fallible steps, or the full normalized row. -/
lemma matchdict_winner_shape (m : RawMatch) (mid : String)
    (c2c : String → Option String) (hwm : m.outcome_winner.isNone = false) :
    (∃ e, matchdict m mid c2c = Except.error e)
    ∨ ∃ scores c dt,
        get_scores (sortTeams m) = Except.ok scores
        ∧ c2c (sortTeams m).city = some c
        ∧ (sortTeams m).dates.head? = some dt
        ∧ matchdict m mid c2c = Except.ok (.complete
            { match_id := mid, country := c, start_date := dt,
              event := (sortTeams m).event_name,
              team_0 := (sortTeams m).teams.getD 0 "",
              team_1 := (sortTeams m).teams.getD 1 "",
              toss_winner := (toss (sortTeams m)).1,
              toss_decision := (toss (sortTeams m)).2,
              runs_0 := (scores : Score × Score).1.runs,
              wickets_0 := (scores : Score × Score).1.wickets,
              deliveries_0 := 6 * (scores : Score × Score).1.overs_o
                + (scores : Score × Score).1.overs_b,
              runs_1 := (scores : Score × Score).2.runs,
              wickets_1 := (scores : Score × Score).2.wickets,
              deliveries_1 := 6 * (scores : Score × Score).2.overs_o
                + (scores : Score × Score).2.overs_b,
              result := results (sortTeams m) }) := by
  have he : (sortTeams m).outcome_winner.isNone = false := hwm
  rw [matchdict]
  simp only [he, Bool.false_eq_true, if_false]
  rcases hgs : get_scores (sortTeams m) with e | scores
  · exact Or.inl ⟨e, rfl⟩
  · rcases hcy : c2c (sortTeams m).city with _ | c
    · exact Or.inl ⟨"KeyError: city", rfl⟩
    · rcases hdd : (sortTeams m).dates.head? with _ | dt
      · exact Or.inl ⟨"IndexError: dates", rfl⟩
      · exact Or.inr ⟨scores, c, dt, rfl, rfl, rfl, rfl⟩

/-- C9 counterexample: a record WITH a recorded winner (toss decision
"abandoned", toss won by the second team) is normalized successfully yet
contributes NO row to the built table: `dropna` removes it because its
`toss_decision` column is null. -/
theorem C9_counterexample :
    hasWinner exMatchNullDecision = true
    ∧ build_db [("m1", exMatchNullDecision)] (fun _ => some "Z") = Except.ok [] :=
  ⟨rfl, rfl⟩

/-- C9 (amended): `build_db` keeps exactly the rows with no null entry
in any existing column.  A normalized dict survives `dropna` iff all its
columns are non-null; incomplete dicts (no winner) are dropped whenever at
least one complete record exists — if ALL records are incomplete, the
13 extra columns do not exist and the two-key stubs are kept; and a record
with a winner yields a complete row whose `toss_decision` is non-null iff
the decision string was "bat" or "field", so winner records with an unknown
decision are silently dropped too (when the build does not abort first). -/
theorem C9_dropped_records (records : List (String × RawMatch))
    (c2c : String → Option String) (rows : List MatchDict)
    (h : records.mapM (fun p => matchdict p.2 p.1 c2c) = Except.ok rows) :
    build_db records c2c = Except.ok (dropna rows)
    ∧ (∀ r ∈ rows, allFieldsSome r = true → r ∈ dropna rows)
    ∧ (∀ r ∈ rows, hasCompleteRecord rows = true → allFieldsSome r = false →
        r ∉ dropna rows)
    ∧ (∀ mid res, MatchDict.incomplete mid res ∈ rows →
        hasCompleteRecord rows = false →
        MatchDict.incomplete mid res ∈ dropna rows)
    ∧ (∀ (m : RawMatch) (mid : String) (row : NormalizedRow),
        matchdict m mid c2c = Except.ok (.complete row) →
        hasWinner m = true
        ∧ (row.toss_decision.isSome = true
            ↔ ((sortTeams m).toss_decision = "bat"
              ∨ (sortTeams m).toss_decision = "field")))
    ∧ (∀ (m : RawMatch) (mid i res : String),
        matchdict m mid c2c = Except.ok (.incomplete i res) →
        hasWinner m = false) := by
  refine ⟨?_, ?_, ?_, ?_, ?_, ?_⟩
  · rw [build_db, h, ok_bind]
    rfl
  · intro r hr ha
    refine List.mem_filter.mpr ⟨hr, ?_⟩
    cases r with
    | incomplete a b => simp [allFieldsSome] at ha
    | complete row => exact ha
  · intro r hr hcomp ha hmem
    have hp := (List.mem_filter.mp hmem).2
    cases r with
    | incomplete a b =>
        rw [hcomp] at hp
        simp at hp
    | complete row =>
        have h1 : allFieldsSome (MatchDict.complete row) = true := hp
        rw [ha] at h1
        simp at h1
  · intro mid res hmem hcomp
    refine List.mem_filter.mpr ⟨hmem, ?_⟩
    simp only [hcomp]
    rfl
  · intro m mid row hmd
    by_cases hwm : m.outcome_winner.isNone = true
    · rcases matchdict_no_winner_shape m mid c2c hwm with hsh | ⟨res, _, hsh⟩ <;>
        rw [hsh] at hmd <;> simp at hmd
    · have hwb : m.outcome_winner.isNone = false := Bool.eq_false_iff.mpr hwm
      have hw : hasWinner m = true := by
        rcases hmw : m.outcome_winner with _ | w
        · rw [hmw] at hwb
          simp at hwb
        · simp [hasWinner, hmw]
      refine ⟨hw, ?_⟩
      rcases matchdict_winner_shape m mid c2c hwb with ⟨e, hsh⟩ | ⟨scores, c, dt, _, _, _, hsh⟩
      · rw [hsh] at hmd
        simp at hmd
      · rw [hsh] at hmd
        have hrow := MatchDict.complete.inj (Except.ok.inj hmd)
        have hdec : row.toss_decision = (toss (sortTeams m)).2 := by
          rw [← hrow]
        rw [hdec]
        have he2 : (toss (sortTeams m)).2
            = if ((sortTeams m).toss_decision == "bat") then some 0
              else if ((sortTeams m).toss_decision == "field") then some 1
              else none := rfl
        rw [he2]
        by_cases hb : (sortTeams m).toss_decision = "bat"
        · rw [if_pos (by simpa using hb)]
          simp [hb]
        · by_cases hf : (sortTeams m).toss_decision = "field"
          · rw [if_neg (by simpa using hb), if_pos (by simpa using hf)]
            simp [hf]
          · rw [if_neg (by simpa using hb), if_neg (by simpa using hf)]
            simp [hb, hf]
  · intro m mid i res hmd
    by_cases hwm : m.outcome_winner.isNone = true
    · rcases hmw : m.outcome_winner with _ | w
      · simp [hasWinner, hmw]
      · rw [hmw] at hwm
        simp at hwm
    · exfalso
      have hwb : m.outcome_winner.isNone = false := Bool.eq_false_iff.mpr hwm
      rcases matchdict_winner_shape m mid c2c hwb with ⟨e, hsh⟩ | ⟨_, _, _, _, _, _, hsh⟩ <;>
        rw [hsh] at hmd <;> simp at hmd

/-- C9 witness: the theorem applied to a two-record collection (one
complete match, one without a winner); the mapM hypothesis is discharged
by computation. -/
theorem C9_witness :
    ([("m1", exMatchComplete), ("m2", exMatchNoWinner)].mapM
        (fun p => matchdict p.2 p.1 (fun _ => some "Z"))
      = Except.ok [.complete ⟨"m1", "Z", "d", "e", "A", "B", 0, some 0,
          3, 0, 1, 1, 0, 1, some 1⟩, .incomplete "m2" "no result"])
    ∧ (build_db [("m1", exMatchComplete), ("m2", exMatchNoWinner)] (fun _ => some "Z")
        = Except.ok (dropna [.complete ⟨"m1", "Z", "d", "e", "A", "B", 0, some 0,
            3, 0, 1, 1, 0, 1, some 1⟩, .incomplete "m2" "no result"])
      ∧ (∀ r ∈ [MatchDict.complete ⟨"m1", "Z", "d", "e", "A", "B", 0, some 0,
            3, 0, 1, 1, 0, 1, some 1⟩, MatchDict.incomplete "m2" "no result"],
          allFieldsSome r = true →
          r ∈ dropna [.complete ⟨"m1", "Z", "d", "e", "A", "B", 0, some 0,
            3, 0, 1, 1, 0, 1, some 1⟩, .incomplete "m2" "no result"])
      ∧ (∀ r ∈ [MatchDict.complete ⟨"m1", "Z", "d", "e", "A", "B", 0, some 0,
            3, 0, 1, 1, 0, 1, some 1⟩, MatchDict.incomplete "m2" "no result"],
          hasCompleteRecord [.complete ⟨"m1", "Z", "d", "e", "A", "B", 0, some 0,
            3, 0, 1, 1, 0, 1, some 1⟩, .incomplete "m2" "no result"] = true →
          allFieldsSome r = false →
          r ∉ dropna [.complete ⟨"m1", "Z", "d", "e", "A", "B", 0, some 0,
            3, 0, 1, 1, 0, 1, some 1⟩, .incomplete "m2" "no result"])
      ∧ (∀ mid res, MatchDict.incomplete mid res ∈
            [MatchDict.complete ⟨"m1", "Z", "d", "e", "A", "B", 0, some 0,
              3, 0, 1, 1, 0, 1, some 1⟩, MatchDict.incomplete "m2" "no result"] →
          hasCompleteRecord [.complete ⟨"m1", "Z", "d", "e", "A", "B", 0, some 0,
            3, 0, 1, 1, 0, 1, some 1⟩, .incomplete "m2" "no result"] = false →
          MatchDict.incomplete mid res ∈ dropna
            [.complete ⟨"m1", "Z", "d", "e", "A", "B", 0, some 0,
              3, 0, 1, 1, 0, 1, some 1⟩, .incomplete "m2" "no result"])
      ∧ (∀ (m : RawMatch) (mid : String) (row : NormalizedRow),
          matchdict m mid (fun _ => some "Z") = Except.ok (.complete row) →
          hasWinner m = true
          ∧ (row.toss_decision.isSome = true
              ↔ ((sortTeams m).toss_decision = "bat"
                ∨ (sortTeams m).toss_decision = "field")))
      ∧ (∀ (m : RawMatch) (mid i res : String),
          matchdict m mid (fun _ => some "Z") = Except.ok (.incomplete i res) →
          hasWinner m = false)) :=
  ⟨rfl,
    C9_dropped_records [("m1", exMatchComplete), ("m2", exMatchNoWinner)]
      (fun _ => some "Z")
      [.complete ⟨"m1", "Z", "d", "e", "A", "B", 0, some 0, 3, 0, 1, 1, 0, 1, some 1⟩,
       .incomplete "m2" "no result"] rfl⟩

/-! ### Claim C10 -/

lemma weighted_cumsum_length (s0 s1 weight : List ℚ) (teams : List String)
    (is0 is1 : String → List Bool) :
    (weighted_cumsum s0 s1 weight teams is0 is1).length = teams.length := by
  simp [weighted_cumsum]

lemma npProject_getD (mat : List (List ℚ)) (base_df : List MatchRow)
    (teams : List String) (n : Fin 2) (i : Nat) (hi : i < base_df.length) :
    (npProject mat (indexer base_df teams n)).getD i 0
      = npTake mat (get_indexer teams (teamAt n (base_df.getD i default))) i := by
  rw [npProject, indexer, getD_zipWith _ _ _ _ 0 0 0 (by simp [hi]) (by simp [hi]),
    getD_range _ _ hi, getD_map _ _ _ default 0 hi]

/-- C10: `weighted_cumsum_column` is total — its output is always one value
per base row.  When the row's slot-n team is missing from the teams list the
indexer yields -1 and, by NumPy negative-index wrap-around, the output at
that row silently comes from the LAST column of the cumulative matrix (the
last team of the list); when the team is present, the output at the row is
the entry of that team's own cumulative column (the column at its first
index), which is the reprojection guarantee. -/
theorem C10_missing_team_reprojection (base_df : List MatchRow) (weight : List ℚ)
    (teams : List String) (is0 is1 : String → List Bool) (column : StatColumn)
    (b : Bool) (n : Fin 2) (i : Nat) (hne : teams ≠ []) (hi : i < base_df.length) :
    (weighted_cumsum_column base_df column weight teams is0 is1 b n).length
        = base_df.length
    ∧ (teamAt n (base_df.getD i default) ∉ teams →
        get_indexer teams (teamAt n (base_df.getD i default)) = -1
        ∧ (weighted_cumsum_column base_df column weight teams is0 is1 b n).getD i 0
          = ((weighted_cumsum (base_df.map (colVal column (if b then 1 else 0)))
                (base_df.map (colVal column (1 - (if b then 1 else 0))))
                weight teams is0 is1).getD (teams.length - 1) []).getD i 0)
    ∧ (teamAt n (base_df.getD i default) ∈ teams →
        (weighted_cumsum_column base_df column weight teams is0 is1 b n).getD i 0
          = (weighted_cumsum_team
              (team_series (base_df.map (colVal column (if b then 1 else 0)))
                (base_df.map (colVal column (1 - (if b then 1 else 0)))) is0 is1
                (teamAt n (base_df.getD i default))) weight).getD i 0) := by
  have hlen : 1 ≤ teams.length := by
    cases teams with
    | nil => exact absurd rfl hne
    | cons a l => simp
  refine ⟨?_, fun hnot => ?_, fun hmem => ?_⟩
  · simp [weighted_cumsum_column, npProject, indexer, List.length_zipWith]
  · refine ⟨by rw [get_indexer, if_neg hnot], ?_⟩
    rw [weighted_cumsum_column, npProject_getD _ _ _ _ _ hi, get_indexer,
      if_neg hnot, npTake]
    have hmatlen : (weighted_cumsum (base_df.map (colVal column (if b then 1 else 0)))
        (base_df.map (colVal column (1 - (if b then 1 else 0))))
        weight teams is0 is1).length = teams.length := weighted_cumsum_length _ _ _ _ _ _
    simp only [hmatlen]
    have hneg : ((-1 : Int) < 0) := by omega
    rw [if_pos hneg]
    have htn : ((-1 : Int) + (teams.length : Int)).toNat = teams.length - 1 := by omega
    rw [htn]
  · rw [weighted_cumsum_column, npProject_getD _ _ _ _ _ hi, get_indexer,
      if_pos hmem, npTake]
    have hidx : List.indexOf (teamAt n (base_df.getD i default)) teams < teams.length :=
      List.indexOf_lt_length.mpr hmem
    have hnonneg : ¬ ((List.indexOf (teamAt n (base_df.getD i default)) teams : Int) < 0) := by
      simp
    rw [if_neg hnonneg, Int.toNat_natCast, weighted_cumsum, getD_map _ _ _ "" [] hidx]
    have hteams : teams.getD (List.indexOf (teamAt n (base_df.getD i default)) teams) ""
        = teamAt n (base_df.getD i default) := by
      rw [List.getD_eq_getElem?_getD, List.getElem?_eq_getElem hidx,
        List.getElem_indexOf hidx]
      rfl
    rw [hteams]

/-- C10 witness: a one-row table whose slot-1 team "Z" is not in the teams
list ["A", "B"]; the theorem applied there. -/
theorem C10_witness :
    ((["A", "B"] : List String) ≠ []
      ∧ 0 < [(⟨"A", "Z", "X", 7, 2, 30, 5, 1, 24, 0⟩ : MatchRow)].length)
    ∧ ((weighted_cumsum_column [(⟨"A", "Z", "X", 7, 2, 30, 5, 1, 24, 0⟩ : MatchRow)]
          .runs [1] ["A", "B"]
          (is_team_dict [(⟨"A", "Z", "X", 7, 2, 30, 5, 1, 24, 0⟩ : MatchRow)] 0)
          (is_team_dict [(⟨"A", "Z", "X", 7, 2, 30, 5, 1, 24, 0⟩ : MatchRow)] 1)
          true 1).length
        = [(⟨"A", "Z", "X", 7, 2, 30, 5, 1, 24, 0⟩ : MatchRow)].length
      ∧ (teamAt 1 ([(⟨"A", "Z", "X", 7, 2, 30, 5, 1, 24, 0⟩ : MatchRow)].getD 0 default)
            ∉ (["A", "B"] : List String) →
          get_indexer ["A", "B"]
              (teamAt 1 ([(⟨"A", "Z", "X", 7, 2, 30, 5, 1, 24, 0⟩ : MatchRow)].getD 0 default))
            = -1
          ∧ (weighted_cumsum_column [(⟨"A", "Z", "X", 7, 2, 30, 5, 1, 24, 0⟩ : MatchRow)]
              .runs [1] ["A", "B"]
              (is_team_dict [(⟨"A", "Z", "X", 7, 2, 30, 5, 1, 24, 0⟩ : MatchRow)] 0)
              (is_team_dict [(⟨"A", "Z", "X", 7, 2, 30, 5, 1, 24, 0⟩ : MatchRow)] 1)
              true 1).getD 0 0
            = ((weighted_cumsum
                  ([(⟨"A", "Z", "X", 7, 2, 30, 5, 1, 24, 0⟩ : MatchRow)].map
                    (colVal .runs (if true then 1 else 0)))
                  ([(⟨"A", "Z", "X", 7, 2, 30, 5, 1, 24, 0⟩ : MatchRow)].map
                    (colVal .runs (1 - (if true then 1 else 0))))
                  [1] ["A", "B"]
                  (is_team_dict [(⟨"A", "Z", "X", 7, 2, 30, 5, 1, 24, 0⟩ : MatchRow)] 0)
                  (is_team_dict [(⟨"A", "Z", "X", 7, 2, 30, 5, 1, 24, 0⟩ : MatchRow)] 1)).getD
                ((["A", "B"] : List String).length - 1) []).getD 0 0)
      ∧ (teamAt 1 ([(⟨"A", "Z", "X", 7, 2, 30, 5, 1, 24, 0⟩ : MatchRow)].getD 0 default)
            ∈ (["A", "B"] : List String) →
          (weighted_cumsum_column [(⟨"A", "Z", "X", 7, 2, 30, 5, 1, 24, 0⟩ : MatchRow)]
              .runs [1] ["A", "B"]
              (is_team_dict [(⟨"A", "Z", "X", 7, 2, 30, 5, 1, 24, 0⟩ : MatchRow)] 0)
              (is_team_dict [(⟨"A", "Z", "X", 7, 2, 30, 5, 1, 24, 0⟩ : MatchRow)] 1)
              true 1).getD 0 0
            = (weighted_cumsum_team
                (team_series
                  ([(⟨"A", "Z", "X", 7, 2, 30, 5, 1, 24, 0⟩ : MatchRow)].map
                    (colVal .runs (if true then 1 else 0)))
                  ([(⟨"A", "Z", "X", 7, 2, 30, 5, 1, 24, 0⟩ : MatchRow)].map
                    (colVal .runs (1 - (if true then 1 else 0))))
                  (is_team_dict [(⟨"A", "Z", "X", 7, 2, 30, 5, 1, 24, 0⟩ : MatchRow)] 0)
                  (is_team_dict [(⟨"A", "Z", "X", 7, 2, 30, 5, 1, 24, 0⟩ : MatchRow)] 1)
                  (teamAt 1 ([(⟨"A", "Z", "X", 7, 2, 30, 5, 1, 24, 0⟩ : MatchRow)].getD 0 default)))
                [1]).getD 0 0)) :=
  ⟨⟨by decide, by decide⟩,
    C10_missing_team_reprojection [(⟨"A", "Z", "X", 7, 2, 30, 5, 1, 24, 0⟩ : MatchRow)]
      [1] ["A", "B"]
      (is_team_dict [(⟨"A", "Z", "X", 7, 2, 30, 5, 1, 24, 0⟩ : MatchRow)] 0)
      (is_team_dict [(⟨"A", "Z", "X", 7, 2, 30, 5, 1, 24, 0⟩ : MatchRow)] 1)
      .runs true 1 0 (by decide) (by decide)⟩

/-! ### Claim C4 -/

/-- The role swap is exact row by row: on a row with distinct teams, the
per-match bowling contribution of team `X` equals the batting value
recorded for the side opposing `X`. -/
lemma perMatch_bowling_eq_opposing (c : StatColumn) (X : String) (r : MatchRow)
    (hr : r.team_0 ≠ r.team_1) :
    perMatch (bowlingKeyOf c) X r = opposingSideBattingValue c X r := by
  by_cases h0 : r.team_0 = X
  · have h1 : r.team_1 ≠ X := fun h => hr (h0.trans h.symm)
    cases c <;> simp [perMatch, bowlingKeyOf, opposingSideBattingValue, colVal,
      boolToQ, h0, h1]
  · by_cases h1 : r.team_1 = X
    · cases c <;> simp [perMatch, bowlingKeyOf, opposingSideBattingValue, colVal,
        boolToQ, h0, h1]
    · cases c <;> simp [perMatch, bowlingKeyOf, opposingSideBattingValue, colVal,
        boolToQ, h0, h1]

/-- C4 counterexample: the claimed column-level identity fails — with three
teams A, B, C and rows (A,B) then (A,C), at row 1 `runs_conceded_0` (team
A conceded 50 to B in row 0) differs from `runs_scored_1` (team C has no
history, 0). -/
theorem C4_counterexample :
    (aggStat [⟨"A", "B", "X", 100, 3, 60, 50, 2, 48, 0⟩,
        ⟨"A", "C", "X", 80, 4, 54, 60, 5, 42, 1⟩] [1, 1] ["A", "B", "C"]
      (is_team_dict [⟨"A", "B", "X", 100, 3, 60, 50, 2, 48, 0⟩,
        ⟨"A", "C", "X", 80, 4, 54, 60, 5, 42, 1⟩] 0)
      (is_team_dict [⟨"A", "B", "X", 100, 3, 60, 50, 2, 48, 0⟩,
        ⟨"A", "C", "X", 80, 4, 54, 60, 5, 42, 1⟩] 1)
      .runs_conceded 0).getD 1 0
    ≠ (aggStat [⟨"A", "B", "X", 100, 3, 60, 50, 2, 48, 0⟩,
        ⟨"A", "C", "X", 80, 4, 54, 60, 5, 42, 1⟩] [1, 1] ["A", "B", "C"]
      (is_team_dict [⟨"A", "B", "X", 100, 3, 60, 50, 2, 48, 0⟩,
        ⟨"A", "C", "X", 80, 4, 54, 60, 5, 42, 1⟩] 0)
      (is_team_dict [⟨"A", "B", "X", 100, 3, 60, 50, 2, 48, 0⟩,
        ⟨"A", "C", "X", 80, 4, 54, 60, 5, 42, 1⟩] 1)
      .runs_scored 1).getD 1 0 := by
  have h1 := aggStat_eq_weighted_sum
    [⟨"A", "B", "X", 100, 3, 60, 50, 2, 48, 0⟩, ⟨"A", "C", "X", 80, 4, 54, 60, 5, 42, 1⟩]
    [1, 1] ["A", "B", "C"] .runs_conceded 0 1 rfl (by decide) (by decide)
  have h2 := aggStat_eq_weighted_sum
    [⟨"A", "B", "X", 100, 3, 60, 50, 2, 48, 0⟩, ⟨"A", "C", "X", 80, 4, 54, 60, 5, 42, 1⟩]
    [1, 1] ["A", "B", "C"] .runs_scored 1 1 rfl (by decide) (by decide)
  rw [h1, h2]
  norm_num [perMatch, boolToQ, teamAt, Finset.sum_range_one, List.getD]
  simp only [if_neg (by decide : ¬("B" : String) = "A"),
    if_neg (by decide : ¬("A" : String) = "C"),
    if_neg (by decide : ¬("B" : String) = "C")]
  norm_num

/-- C4 (amended): a bowling-side weighted aggregate of side n at row i is
the decayed sum, over strictly prior rows, of the batting value recorded
for the side OPPOSING that row's slot-n team in each prior match (rows
where the team did not play contribute zero) — the role swap holds match
by match, not between the two displayed columns of the same row. -/
theorem C4_roleswap_aggregates (base_df : List MatchRow) (weight : List ℚ)
    (teams : List String) (c : StatColumn) (n : Fin 2) (i : Nat)
    (hw : weight.length = base_df.length) (hi : i < base_df.length)
    (ht : teamAt n (base_df.getD i default) ∈ teams)
    (hdist : ∀ r ∈ base_df, r.team_0 ≠ r.team_1) :
    (aggStat base_df weight teams (is_team_dict base_df 0) (is_team_dict base_df 1)
        (bowlingKeyOf c) n).getD i 0
      = weight.getD i 0 * ∑ j in Finset.range i,
          opposingSideBattingValue c (teamAt n (base_df.getD i default))
            (base_df.getD j default) / weight.getD j 0 := by
  rw [aggStat_eq_weighted_sum base_df weight teams (bowlingKeyOf c) n i hw hi ht]
  congr 1
  refine Finset.sum_congr rfl (fun j hj => ?_)
  have hj' : j < base_df.length := lt_trans (Finset.mem_range.mp hj) hi
  have hmem : base_df.getD j default ∈ base_df := by
    rw [List.getD_eq_getElem?_getD, List.getElem?_eq_getElem hj']
    exact List.getElem_mem hj'
  rw [perMatch_bowling_eq_opposing c _ _ (hdist _ hmem)]

/-- C4 witness: the amended theorem applied to the two-row three-team
table at row 1. -/
theorem C4_witness :
    (([1, 1] : List ℚ).length = [(⟨"A", "B", "X", 100, 3, 60, 50, 2, 48, 0⟩ : MatchRow),
        ⟨"A", "C", "X", 80, 4, 54, 60, 5, 42, 1⟩].length
      ∧ 1 < [(⟨"A", "B", "X", 100, 3, 60, 50, 2, 48, 0⟩ : MatchRow),
        ⟨"A", "C", "X", 80, 4, 54, 60, 5, 42, 1⟩].length
      ∧ (∀ r ∈ [(⟨"A", "B", "X", 100, 3, 60, 50, 2, 48, 0⟩ : MatchRow),
          ⟨"A", "C", "X", 80, 4, 54, 60, 5, 42, 1⟩], r.team_0 ≠ r.team_1))
    ∧ (aggStat [(⟨"A", "B", "X", 100, 3, 60, 50, 2, 48, 0⟩ : MatchRow),
          ⟨"A", "C", "X", 80, 4, 54, 60, 5, 42, 1⟩] [1, 1] ["A", "B", "C"]
        (is_team_dict [(⟨"A", "B", "X", 100, 3, 60, 50, 2, 48, 0⟩ : MatchRow),
          ⟨"A", "C", "X", 80, 4, 54, 60, 5, 42, 1⟩] 0)
        (is_team_dict [(⟨"A", "B", "X", 100, 3, 60, 50, 2, 48, 0⟩ : MatchRow),
          ⟨"A", "C", "X", 80, 4, 54, 60, 5, 42, 1⟩] 1)
        (bowlingKeyOf .runs) 0).getD 1 0
      = ([1, 1] : List ℚ).getD 1 0 * ∑ j in Finset.range 1,
          opposingSideBattingValue .runs
            (teamAt 0 ([(⟨"A", "B", "X", 100, 3, 60, 50, 2, 48, 0⟩ : MatchRow),
              ⟨"A", "C", "X", 80, 4, 54, 60, 5, 42, 1⟩].getD 1 default))
            ([(⟨"A", "B", "X", 100, 3, 60, 50, 2, 48, 0⟩ : MatchRow),
              ⟨"A", "C", "X", 80, 4, 54, 60, 5, 42, 1⟩].getD j default)
            / ([1, 1] : List ℚ).getD j 0 :=
  ⟨⟨rfl, by decide, by decide⟩,
    C4_roleswap_aggregates
      [⟨"A", "B", "X", 100, 3, 60, 50, 2, 48, 0⟩, ⟨"A", "C", "X", 80, 4, 54, 60, 5, 42, 1⟩]
      [1, 1] ["A", "B", "C"] .runs 0 1 rfl (by decide) (by decide) (by decide)⟩

end WWC
